import Mathlib

set_option linter.unusedVariables false

/-!
Verification of the apfs tree-checker and extent-buffer value codec
(src/struct-funcs.c, src/tree-checker.c) against its specification.

The extent buffer is modelled as a logical sequence of fixed-size pages;
machine integers are modelled as Nat, with explicit `% 2 ^ w` / `% 256`
arithmetic where the C code truncates.
-/

/-! ## Value codec: shallow embedding of src/struct-funcs.c -/

def PAGE_SIZE : Nat := 4096

/-- An extent buffer: device start address, logical length, and the backing
pages. `pages p q` is the byte stored at in-page offset `q` of page `p`
(a byte value, `< 256` for any buffer a real machine can hold). -/
structure extent_buffer where
  start : Nat
  len : Nat
  pages : Nat → Nat → Nat

/-- Modelled from the spec: `get_eb_page_index` is declared in ctree.h, which
is not part of src/.  Per spec section 4.1 it resolves a logical byte offset to
the index of the page holding it. -/
def get_eb_page_index (off : Nat) : Nat := off / PAGE_SIZE

/-- Modelled from the spec: `get_eb_offset_in_page` is declared in ctree.h,
which is not part of src/.  Per spec section 4.1 it resolves a logical byte
offset to the offset inside its page. -/
def get_eb_offset_in_page (eb : extent_buffer) (off : Nat) : Nat := off % PAGE_SIZE

/-- Read `n` consecutive bytes of page `idx` starting at in-page offset `o`
(the model of a `memcpy` out of one page). -/
def readPage (eb : extent_buffer) (idx o n : Nat) : List Nat :=
  (List.range n).map fun i => eb.pages idx (o + i)

/-- Write the byte list `bs` into page `idx` starting at in-page offset `o`
(the model of a `memcpy` into one page). -/
def put_bytes (eb : extent_buffer) (idx o : Nat) (bs : List Nat) : extent_buffer :=
  { eb with pages := fun p q =>
      if p = idx ∧ o ≤ q ∧ q < o + bs.length then bs.getD (q - o) 0 else eb.pages p q }

/-- Little-endian decoding of a byte list (`get_unaligned_le##bits`). -/
def decode_le (bs : List Nat) : Nat := bs.foldr (fun b acc => b + 256 * acc) 0

/-- Little-endian encoding of `v` into `size` bytes (`put_unaligned_le##bits`;
the value is truncated to `size` bytes exactly as the C integer type does). -/
def encode_le (size v : Nat) : List Nat :=
  (List.range size).map fun i => v / 256 ^ i % 256

/-- src/struct-funcs.c `check_setget_bounds`: true iff the accessed member
lies inside the buffer (both early-warning branches untaken). -/
def check_setget_bounds (eb : extent_buffer) (ptr off size : Nat) : Bool :=
  let member_offset := ptr + off
  if member_offset > eb.len then false
  else if member_offset + size > eb.len then false
  else true

/-- src/struct-funcs.c `apfs_get_##bits` (the macro body of
DEFINE_APFS_SETGET_BITS, with `size = sizeof(u##bits)`): read a `size`-byte
little-endian value at logical offset `ptr + off`, splitting across the page
boundary when the value straddles two pages. -/
def apfs_get_bits (size : Nat) (eb : extent_buffer) (ptr off : Nat) : Nat :=
  let member_offset := ptr + off
  let oip := get_eb_offset_in_page eb member_offset
  let idx := get_eb_page_index member_offset
  let part := PAGE_SIZE - oip
  if oip + size ≤ PAGE_SIZE then
    decode_le (readPage eb idx oip size)
  else
    decode_le (readPage eb idx oip part ++ readPage eb (idx + 1) 0 (size - part))

/-- src/struct-funcs.c `apfs_set_##bits`: write the `size`-byte little-endian
encoding of `val` at logical offset `ptr + off`, splitting across the page
boundary when it straddles two pages. -/
def apfs_set_bits (size : Nat) (eb : extent_buffer) (ptr off val : Nat) : extent_buffer :=
  let member_offset := ptr + off
  let oip := get_eb_offset_in_page eb member_offset
  let idx := get_eb_page_index member_offset
  let part := PAGE_SIZE - oip
  let lebytes := encode_le size val
  if oip + size ≤ PAGE_SIZE then
    put_bytes eb idx oip lebytes
  else
    put_bytes (put_bytes eb idx oip (lebytes.take part)) (idx + 1) 0 (lebytes.drop part)

/-- An access token (`struct apfs_map_token`).  The C token caches the kernel
address of the most recently resolved page and that page's absolute byte
offset; `kaddr` here is the index of the page whose base address is cached.
(The C token also carries the owning buffer pointer `token->eb`; the model
passes the buffer alongside.) -/
structure apfs_map_token where
  kaddr : Nat
  offset : Nat

/-- The coupling invariant every reachable token satisfies: the cached offset
is the absolute byte offset of the cached page. -/
def token_wf (tok : apfs_map_token) : Prop := tok.offset = tok.kaddr * PAGE_SIZE

instance (tok : apfs_map_token) : Decidable (token_wf tok) := by
  unfold token_wf
  infer_instance

/-- src/struct-funcs.c `apfs_get_token_##bits`: like `apfs_get_bits` but with
a fast path when the requested range lies inside the cached page; on the slow
path the token is re-pointed at the last page touched. -/
def apfs_get_token_bits (size : Nat) (eb : extent_buffer) (tok : apfs_map_token)
    (ptr off : Nat) : Nat × apfs_map_token :=
  let member_offset := ptr + off
  let idx := get_eb_page_index member_offset
  let oip := get_eb_offset_in_page eb member_offset
  let part := PAGE_SIZE - oip
  if tok.offset ≤ member_offset ∧ member_offset + size ≤ tok.offset + PAGE_SIZE then
    (decode_le (readPage eb tok.kaddr oip size), tok)
  else if oip + size ≤ PAGE_SIZE then
    (decode_le (readPage eb idx oip size), ⟨idx, idx * PAGE_SIZE⟩)
  else
    (decode_le (readPage eb idx oip part ++ readPage eb (idx + 1) 0 (size - part)),
      ⟨idx + 1, (idx + 1) * PAGE_SIZE⟩)

/-- src/struct-funcs.c `apfs_set_token_##bits`. -/
def apfs_set_token_bits (size : Nat) (eb : extent_buffer) (tok : apfs_map_token)
    (ptr off val : Nat) : extent_buffer × apfs_map_token :=
  let member_offset := ptr + off
  let idx := get_eb_page_index member_offset
  let oip := get_eb_offset_in_page eb member_offset
  let part := PAGE_SIZE - oip
  let lebytes := encode_le size val
  if tok.offset ≤ member_offset ∧ member_offset + size ≤ tok.offset + PAGE_SIZE then
    (put_bytes eb tok.kaddr oip lebytes, tok)
  else if oip + size ≤ PAGE_SIZE then
    (put_bytes eb idx oip lebytes, ⟨idx, idx * PAGE_SIZE⟩)
  else
    (put_bytes (put_bytes eb idx oip (lebytes.take part)) (idx + 1) 0 (lebytes.drop part),
      ⟨idx + 1, (idx + 1) * PAGE_SIZE⟩)

/-- The four generated widths (`DEFINE_APFS_SETGET_BITS(8/16/32/64)`). -/
def apfs_get_8 : extent_buffer → Nat → Nat → Nat := apfs_get_bits 1
def apfs_get_16 : extent_buffer → Nat → Nat → Nat := apfs_get_bits 2
def apfs_get_32 : extent_buffer → Nat → Nat → Nat := apfs_get_bits 4
def apfs_get_64 : extent_buffer → Nat → Nat → Nat := apfs_get_bits 8
def apfs_set_8 : extent_buffer → Nat → Nat → Nat → extent_buffer := apfs_set_bits 1
def apfs_set_16 : extent_buffer → Nat → Nat → Nat → extent_buffer := apfs_set_bits 2
def apfs_set_32 : extent_buffer → Nat → Nat → Nat → extent_buffer := apfs_set_bits 4
def apfs_set_64 : extent_buffer → Nat → Nat → Nat → extent_buffer := apfs_set_bits 8

/-! ### Codec lemmas -/

theorem encode_le_length (size v : Nat) : (encode_le size v).length = size := by
  simp [encode_le]

theorem decode_le_cons (b : Nat) (bs : List Nat) :
    decode_le (b :: bs) = b + 256 * decode_le bs := rfl

theorem mod_mul_decomp (a b c : Nat) : a % (b * c) = a % b + b * (a / b % c) := by
  rcases Nat.eq_zero_or_pos b with hb | hb
  · subst hb; simp
  rcases Nat.eq_zero_or_pos c with hc | hc
  · subst hc; simp [Nat.mod_add_div]
  have h1 : a = (b * (a / b % c) + a % b) + (b * c) * (a / b / c) := by
    nlinarith [Nat.div_add_mod a b, Nat.div_add_mod (a / b) c]
  calc a % (b * c)
      = ((b * (a / b % c) + a % b) + (b * c) * (a / b / c)) % (b * c) := by rw [← h1]
    _ = (b * (a / b % c) + a % b) % (b * c) := by rw [Nat.add_mul_mod_self_left]
    _ = b * (a / b % c) + a % b := by
        apply Nat.mod_eq_of_lt
        have h2 : a / b % c < c := Nat.mod_lt _ hc
        have h3 : a % b < b := Nat.mod_lt _ hb
        nlinarith
    _ = a % b + b * (a / b % c) := by ring

theorem encode_le_succ (n v : Nat) :
    encode_le (n + 1) v = v % 256 :: encode_le n (v / 256) := by
  unfold encode_le
  rw [List.range_succ_eq_map, List.map_cons, List.map_map]
  congr 1
  · simp
  · apply List.map_congr_left
    intro i _
    simp only [Function.comp_apply]
    rw [pow_succ' 256 i, ← Nat.div_div_eq_div_mul]

theorem decode_encode_le (size v : Nat) :
    decode_le (encode_le size v) = v % 256 ^ size := by
  induction size generalizing v with
  | zero => simp [encode_le, decode_le, Nat.mod_one]
  | succ n ih =>
      rw [encode_le_succ, decode_le_cons, ih, pow_succ' 256 n, mod_mul_decomp]

theorem range_map_getD (bs : List Nat) :
    (List.range bs.length).map (fun i => bs.getD i 0) = bs := by
  apply List.ext_getElem
  · simp
  · intro i h1 h2
    simp [List.getD_eq_getElem?_getD, List.getElem?_eq_getElem h2]

theorem readPage_put_bytes_same (eb : extent_buffer) (p o : Nat) (bs : List Nat) :
    readPage (put_bytes eb p o bs) p o bs.length = bs := by
  unfold readPage put_bytes
  have h : ∀ i ∈ List.range bs.length,
      (if p = p ∧ o ≤ o + i ∧ o + i < o + bs.length then bs.getD (o + i - o) 0
       else eb.pages p (o + i)) = bs.getD i 0 := by
    intro i hi
    rw [List.mem_range] at hi
    rw [if_pos ⟨rfl, Nat.le_add_right o i, by omega⟩]
    congr 1
    omega
  rw [List.map_congr_left h, range_map_getD]

theorem put_bytes_pages_ne (eb : extent_buffer) (p o : Nat) (bs : List Nat) (q r : Nat)
    (h : ¬(q = p ∧ o ≤ r ∧ r < o + bs.length)) :
    (put_bytes eb p o bs).pages q r = eb.pages q r := by
  unfold put_bytes
  exact if_neg h

theorem put_bytes_nil (eb : extent_buffer) (p o : Nat) : put_bytes eb p o [] = eb := by
  cases eb with
  | mk s l pg =>
      unfold put_bytes
      simp only [extent_buffer.mk.injEq, true_and]
      funext q r
      simp

theorem readPage_congr (eb1 eb2 : extent_buffer) (idx o n : Nat)
    (h : ∀ i, i < n → eb1.pages idx (o + i) = eb2.pages idx (o + i)) :
    readPage eb1 idx o n = readPage eb2 idx o n := by
  unfold readPage
  apply List.map_congr_left
  intro i hi
  exact h i (List.mem_range.mp hi)

theorem get_set_same (size : Nat) (eb : extent_buffer) (ptr off v : Nat) :
    apfs_get_bits size (apfs_set_bits size eb ptr off v) ptr off = v % 256 ^ size := by
  unfold apfs_get_bits apfs_set_bits
  simp only [get_eb_offset_in_page, get_eb_page_index]
  have hP : 0 < PAGE_SIZE := by decide
  have hoip : (ptr + off) % PAGE_SIZE < PAGE_SIZE := Nat.mod_lt _ hP
  by_cases hsp : (ptr + off) % PAGE_SIZE + size ≤ PAGE_SIZE
  · rw [if_pos hsp, if_pos hsp]
    have h := readPage_put_bytes_same eb ((ptr + off) / PAGE_SIZE)
      ((ptr + off) % PAGE_SIZE) (encode_le size v)
    rw [encode_le_length] at h
    rw [h, decode_encode_le]
  · rw [if_neg hsp, if_neg hsp]
    set m := ptr + off with hm
    set oip := m % PAGE_SIZE with hoipdef
    set idx := m / PAGE_SIZE with hidx
    set part := PAGE_SIZE - oip with hpart
    set tk := (encode_le size v).take part with htk
    set dr := (encode_le size v).drop part with hdr
    have hpartsz : part ≤ size := by omega
    have htklen : tk.length = part := by
      rw [htk, List.length_take, encode_le_length]; omega
    have hdrlen : dr.length = size - part := by
      rw [hdr, List.length_drop, encode_le_length]
    have h1 : readPage (put_bytes (put_bytes eb idx oip tk) (idx + 1) 0 dr) idx oip part =
        readPage (put_bytes eb idx oip tk) idx oip part := by
      apply readPage_congr
      intro i hi
      apply put_bytes_pages_ne
      intro hcon
      omega
    have h2 : readPage (put_bytes eb idx oip tk) idx oip part = tk := by
      have h := readPage_put_bytes_same eb idx oip tk
      rw [htklen] at h
      exact h
    have h3 : readPage (put_bytes (put_bytes eb idx oip tk) (idx + 1) 0 dr)
        (idx + 1) 0 (size - part) = dr := by
      have h := readPage_put_bytes_same (put_bytes eb idx oip tk) (idx + 1) 0 dr
      rw [hdrlen] at h
      exact h
    rw [h1, h2, h3, htk, hdr, List.take_append_drop, decode_encode_le]

/-- Bytes of the buffer outside the written logical range `[ptr+off, ptr+off+size)`
are untouched by `apfs_set_bits` (for any in-page position `q < PAGE_SIZE`). -/
theorem set_bits_pages_outside (size : Nat) (eb : extent_buffer) (ptr off v p q : Nat)
    (hq : q < PAGE_SIZE)
    (hout : p * PAGE_SIZE + q < ptr + off ∨ ptr + off + size ≤ p * PAGE_SIZE + q) :
    (apfs_set_bits size eb ptr off v).pages p q = eb.pages p q := by
  unfold apfs_set_bits
  simp only [get_eb_offset_in_page, get_eb_page_index]
  have hP : 0 < PAGE_SIZE := by decide
  have hdm := Nat.div_add_mod (ptr + off) PAGE_SIZE
  have hoip : (ptr + off) % PAGE_SIZE < PAGE_SIZE := Nat.mod_lt _ hP
  by_cases hsp : (ptr + off) % PAGE_SIZE + size ≤ PAGE_SIZE
  · rw [if_pos hsp]
    apply put_bytes_pages_ne
    rw [encode_le_length]
    rintro ⟨hp, hle, hlt⟩
    subst hp
    simp only [PAGE_SIZE] at *
    omega
  · rw [if_neg hsp]
    rw [put_bytes_pages_ne, put_bytes_pages_ne]
    · rw [List.length_take, encode_le_length]
      rintro ⟨hp, hle, hlt⟩
      subst hp
      simp only [PAGE_SIZE] at *
      omega
    · rw [List.length_drop, encode_le_length]
      rintro ⟨hp, _, hlt⟩
      subst hp
      simp only [PAGE_SIZE] at *
      omega

/-- `apfs_set_bits` never writes any page other than the page holding
`ptr + off` and the one after it. -/
theorem set_bits_pages_two (size : Nat) (eb : extent_buffer) (ptr off v p q : Nat)
    (h1 : p ≠ get_eb_page_index (ptr + off))
    (h2 : p ≠ get_eb_page_index (ptr + off) + 1) :
    (apfs_set_bits size eb ptr off v).pages p q = eb.pages p q := by
  unfold apfs_set_bits
  simp only [get_eb_offset_in_page]
  unfold get_eb_page_index at h1 h2 ⊢
  by_cases hsp : (ptr + off) % PAGE_SIZE + size ≤ PAGE_SIZE
  · rw [if_pos hsp]
    apply put_bytes_pages_ne
    rintro ⟨hp, _, _⟩
    exact h1 hp
  · rw [if_neg hsp]
    rw [put_bytes_pages_ne, put_bytes_pages_ne]
    · rintro ⟨hp, _, _⟩
      exact h1 hp
    · rintro ⟨hp, _, _⟩
      exact h2 hp

/-- `apfs_get_bits` depends only on the buffer bytes whose logical offset lies
in `[ptr+off, ptr+off+size)`. -/
theorem get_bits_congr (size : Nat) (eb eb2 : extent_buffer) (ptr off : Nat)
    (hsz : size ≤ PAGE_SIZE)
    (h : ∀ p q, q < PAGE_SIZE → ptr + off ≤ p * PAGE_SIZE + q →
      p * PAGE_SIZE + q < ptr + off + size → eb2.pages p q = eb.pages p q) :
    apfs_get_bits size eb2 ptr off = apfs_get_bits size eb ptr off := by
  unfold apfs_get_bits
  simp only [get_eb_offset_in_page, get_eb_page_index]
  have hP : 0 < PAGE_SIZE := by decide
  have hdm := Nat.div_add_mod (ptr + off) PAGE_SIZE
  have hoip : (ptr + off) % PAGE_SIZE < PAGE_SIZE := Nat.mod_lt _ hP
  by_cases hsp : (ptr + off) % PAGE_SIZE + size ≤ PAGE_SIZE
  · rw [if_pos hsp, if_pos hsp]
    congr 1
    apply readPage_congr
    intro i hi
    apply h
    · simp only [PAGE_SIZE] at *; omega
    · simp only [PAGE_SIZE] at *; omega
    · simp only [PAGE_SIZE] at *; omega
  · rw [if_neg hsp, if_neg hsp]
    congr 2
    · apply readPage_congr
      intro i hi
      apply h
      · simp only [PAGE_SIZE] at *; omega
      · simp only [PAGE_SIZE] at *; omega
      · simp only [PAGE_SIZE] at *; omega
    · apply readPage_congr
      intro i hi
      apply h
      · simp only [PAGE_SIZE] at *; omega
      · simp only [PAGE_SIZE] at *; omega
      · simp only [PAGE_SIZE] at *; omega

theorem token_fast_path_page (size : Nat) (tok : apfs_map_token) (m : Nat)
    (hwf : token_wf tok) (hs : 0 < size)
    (h1 : tok.offset ≤ m) (h2 : m + size ≤ tok.offset + PAGE_SIZE) :
    m / PAGE_SIZE = tok.kaddr ∧ m % PAGE_SIZE + size ≤ PAGE_SIZE := by
  unfold token_wf at hwf
  have hdiv : m / PAGE_SIZE = tok.kaddr := by
    apply Nat.div_eq_of_lt_le
    · omega
    · have : (tok.kaddr + 1) * PAGE_SIZE = tok.kaddr * PAGE_SIZE + PAGE_SIZE := by ring
      omega
  refine ⟨hdiv, ?_⟩
  have hdm := Nat.div_add_mod m PAGE_SIZE
  rw [hdiv] at hdm
  have hcomm : PAGE_SIZE * tok.kaddr = tok.kaddr * PAGE_SIZE := Nat.mul_comm _ _
  omega

theorem readPage_zero (eb : extent_buffer) (idx o : Nat) : readPage eb idx o 0 = [] := rfl

theorem get_token_bits_eq (size : Nat) (eb : extent_buffer) (tok : apfs_map_token)
    (ptr off : Nat) (hwf : token_wf tok) :
    (apfs_get_token_bits size eb tok ptr off).1 = apfs_get_bits size eb ptr off ∧
    token_wf (apfs_get_token_bits size eb tok ptr off).2 := by
  unfold apfs_get_token_bits apfs_get_bits
  simp only [get_eb_offset_in_page, get_eb_page_index]
  by_cases hc : tok.offset ≤ ptr + off ∧ ptr + off + size ≤ tok.offset + PAGE_SIZE
  · rw [if_pos hc]
    rcases Nat.eq_zero_or_pos size with hs | hs
    · subst hs
      have hoip : (ptr + off) % PAGE_SIZE + 0 ≤ PAGE_SIZE := by
        have : (ptr + off) % PAGE_SIZE < PAGE_SIZE := Nat.mod_lt _ (by decide)
        omega
      rw [if_pos hoip]
      refine ⟨?_, hwf⟩
      show decode_le (readPage eb tok.kaddr ((ptr + off) % PAGE_SIZE) 0) =
        decode_le (readPage eb ((ptr + off) / PAGE_SIZE) ((ptr + off) % PAGE_SIZE) 0)
      rw [readPage_zero, readPage_zero]
    · obtain ⟨hdiv, hfit⟩ := token_fast_path_page size tok (ptr + off) hwf hs hc.1 hc.2
      rw [if_pos hfit, hdiv]
      exact ⟨rfl, hwf⟩
  · rw [if_neg hc]
    by_cases hsp : (ptr + off) % PAGE_SIZE + size ≤ PAGE_SIZE
    · rw [if_pos hsp, if_pos hsp]
      exact ⟨rfl, rfl⟩
    · rw [if_neg hsp, if_neg hsp]
      exact ⟨rfl, rfl⟩

theorem set_token_bits_eq (size : Nat) (eb : extent_buffer) (tok : apfs_map_token)
    (ptr off v : Nat) (hwf : token_wf tok) :
    (apfs_set_token_bits size eb tok ptr off v).1 = apfs_set_bits size eb ptr off v ∧
    token_wf (apfs_set_token_bits size eb tok ptr off v).2 := by
  unfold apfs_set_token_bits apfs_set_bits
  simp only [get_eb_offset_in_page, get_eb_page_index]
  by_cases hc : tok.offset ≤ ptr + off ∧ ptr + off + size ≤ tok.offset + PAGE_SIZE
  · rw [if_pos hc]
    rcases Nat.eq_zero_or_pos size with hs | hs
    · subst hs
      have hoip : (ptr + off) % PAGE_SIZE + 0 ≤ PAGE_SIZE := by
        have : (ptr + off) % PAGE_SIZE < PAGE_SIZE := Nat.mod_lt _ (by decide)
        omega
      rw [if_pos hoip]
      refine ⟨?_, hwf⟩
      show put_bytes eb tok.kaddr ((ptr + off) % PAGE_SIZE) (encode_le 0 v) =
        put_bytes eb ((ptr + off) / PAGE_SIZE) ((ptr + off) % PAGE_SIZE) (encode_le 0 v)
      have he : encode_le 0 v = [] := rfl
      rw [he, put_bytes_nil, put_bytes_nil]
    · obtain ⟨hdiv, hfit⟩ := token_fast_path_page size tok (ptr + off) hwf hs hc.1 hc.2
      rw [if_pos hfit, hdiv]
      exact ⟨rfl, hwf⟩
  · rw [if_neg hc]
    by_cases hsp : (ptr + off) % PAGE_SIZE + size ≤ PAGE_SIZE
    · rw [if_pos hsp, if_pos hsp]
      exact ⟨rfl, rfl⟩
    · rw [if_neg hsp, if_neg hsp]
      exact ⟨rfl, rfl⟩

theorem apfs_set_bits_len (size : Nat) (eb : extent_buffer) (ptr off v : Nat) :
    (apfs_set_bits size eb ptr off v).len = eb.len := by
  unfold apfs_set_bits put_bytes
  by_cases hsp : (ptr + off) % PAGE_SIZE + size ≤ PAGE_SIZE <;>
    simp [get_eb_offset_in_page, get_eb_page_index, hsp]

/-! ### Access sequences (for token equivalence over arbitrary access orders) -/

/-- One generic-accessor call: a `apfs_get_W` read or an `apfs_set_W` write,
with `size = W / 8`. -/
inductive vc_op where
  | get (size ptr off : Nat)
  | set (size ptr off v : Nat)

/-- A call is valid when its width is one of the four generated widths and the
accessed member lies inside the buffer (the spec precondition). -/
def vc_op_ok (len : Nat) : vc_op → Bool
  | .get size ptr off =>
      (size = 1 ∨ size = 2 ∨ size = 4 ∨ size = 8) ∧ ptr + off + size ≤ len
  | .set size ptr off _ =>
      (size = 1 ∨ size = 2 ∨ size = 4 ∨ size = 8) ∧ ptr + off + size ≤ len

/-- Run a sequence of accesses with the plain (token-free) accessors, returning
the final buffer and the list of values read. -/
def run_ops : extent_buffer → List vc_op → extent_buffer × List Nat
  | eb, [] => (eb, [])
  | eb, .get size ptr off :: rest =>
      let r := run_ops eb rest
      (r.1, apfs_get_bits size eb ptr off :: r.2)
  | eb, .set size ptr off v :: rest => run_ops (apfs_set_bits size eb ptr off v) rest

/-- Run the same sequence with the token-carrying accessors, threading the
token through. -/
def run_ops_token :
    extent_buffer → apfs_map_token → List vc_op → extent_buffer × apfs_map_token × List Nat
  | eb, tok, [] => (eb, tok, [])
  | eb, tok, .get size ptr off :: rest =>
      let g := apfs_get_token_bits size eb tok ptr off
      let r := run_ops_token eb g.2 rest
      (r.1, r.2.1, g.1 :: r.2.2)
  | eb, tok, .set size ptr off v :: rest =>
      let s := apfs_set_token_bits size eb tok ptr off v
      run_ops_token s.1 s.2 rest

theorem run_ops_token_eq (ops : List vc_op) (eb : extent_buffer) (tok : apfs_map_token)
    (hwf : token_wf tok) :
    (run_ops_token eb tok ops).1 = (run_ops eb ops).1 ∧
    (run_ops_token eb tok ops).2.2 = (run_ops eb ops).2 := by
  induction ops generalizing eb tok with
  | nil => exact ⟨rfl, rfl⟩
  | cons op rest ih =>
      cases op with
      | get size ptr off =>
          obtain ⟨hval, hwf2⟩ := get_token_bits_eq size eb tok ptr off hwf
          obtain ⟨ih1, ih2⟩ := ih eb (apfs_get_token_bits size eb tok ptr off).2 hwf2
          refine ⟨ih1, ?_⟩
          show (apfs_get_token_bits size eb tok ptr off).1 ::
              (run_ops_token eb (apfs_get_token_bits size eb tok ptr off).2 rest).2.2 =
            apfs_get_bits size eb ptr off :: (run_ops eb rest).2
          rw [hval, ih2]
      | set size ptr off v =>
          obtain ⟨hbuf, hwf2⟩ := set_token_bits_eq size eb tok ptr off v hwf
          show (run_ops_token (apfs_set_token_bits size eb tok ptr off v).1
              (apfs_set_token_bits size eb tok ptr off v).2 rest).1 =
            (run_ops (apfs_set_bits size eb ptr off v) rest).1 ∧
            (run_ops_token (apfs_set_token_bits size eb tok ptr off v).1
              (apfs_set_token_bits size eb tok ptr off v).2 rest).2.2 =
            (run_ops (apfs_set_bits size eb ptr off v) rest).2
          rw [hbuf]
          exact ih _ _ hwf2

/-! ## Claims C2, C3, C4 -/

/-- C2: for every generated width W (sizes 1, 2, 4, 8 bytes), every valid
offset (including offsets straddling a page boundary) and every representable
value v, `apfs_get_W` read immediately after `apfs_set_W` wrote v at the same
offset returns exactly v. -/
theorem C2_set_get_roundtrip (size : Nat) (eb : extent_buffer) (ptr off v : Nat)
    (hsz : size = 1 ∨ size = 2 ∨ size = 4 ∨ size = 8)
    (hb : ptr + off + size ≤ eb.len)
    (hv : v < 2 ^ (8 * size)) :
    apfs_get_bits size (apfs_set_bits size eb ptr off v) ptr off = v := by
  have hv' : v < 256 ^ size := by
    have h : (2 : Nat) ^ (8 * size) = 256 ^ size := by
      rw [pow_mul]
      norm_num
    omega
  rw [get_set_same, Nat.mod_eq_of_lt hv']

theorem C2_set_get_roundtrip_witness :
    (8 = 1 ∨ 8 = 2 ∨ 8 = 4 ∨ 8 = 8) ∧
    0 + 4090 + 8 ≤ (extent_buffer.mk 0 16384 (fun _ _ => 0)).len ∧
    77 < 2 ^ (8 * 8) ∧
    apfs_get_bits 8 (apfs_set_bits 8 (extent_buffer.mk 0 16384 (fun _ _ => 0)) 0 4090 77)
      0 4090 = 77 :=
  ⟨by decide, by decide, by norm_num,
    C2_set_get_roundtrip 8 (extent_buffer.mk 0 16384 (fun _ _ => 0)) 0 4090 77
      (by decide) (by decide) (by norm_num)⟩

/-- C3: under the precondition `ptr + off + size ≤ len`, every accessor call
stays in bounds: `check_setget_bounds` succeeds (neither failure branch is
taken); a write touches no page other than the one holding `ptr + off` and the
next one, and touches no byte whose logical offset is outside
`[ptr + off, ptr + off + size)` (hence, with the precondition, none outside
`[0, len)`); a read depends only on the bytes inside that range; and the
token-carrying accessors touch exactly the bytes the plain ones do. -/
theorem C3_setget_bounds_safety (size : Nat) (eb : extent_buffer)
    (ptr off v : Nat) (tok : apfs_map_token)
    (hsz : size = 1 ∨ size = 2 ∨ size = 4 ∨ size = 8)
    (hb : ptr + off + size ≤ eb.len)
    (htok : token_wf tok) :
    check_setget_bounds eb ptr off size = true ∧
    (∀ p q, p ≠ get_eb_page_index (ptr + off) → p ≠ get_eb_page_index (ptr + off) + 1 →
      (apfs_set_bits size eb ptr off v).pages p q = eb.pages p q) ∧
    (∀ p q, q < PAGE_SIZE →
      (p * PAGE_SIZE + q < ptr + off ∨ ptr + off + size ≤ p * PAGE_SIZE + q) →
      (apfs_set_bits size eb ptr off v).pages p q = eb.pages p q) ∧
    (∀ eb2 : extent_buffer,
      (∀ p q, q < PAGE_SIZE → ptr + off ≤ p * PAGE_SIZE + q →
        p * PAGE_SIZE + q < ptr + off + size → eb2.pages p q = eb.pages p q) →
      apfs_get_bits size eb2 ptr off = apfs_get_bits size eb ptr off) ∧
    (apfs_set_token_bits size eb tok ptr off v).1 = apfs_set_bits size eb ptr off v ∧
    (apfs_get_token_bits size eb tok ptr off).1 = apfs_get_bits size eb ptr off := by
  refine ⟨?_, ?_, ?_, ?_, ?_, ?_⟩
  · unfold check_setget_bounds
    rw [if_neg (by omega), if_neg (by omega)]
  · intro p q h1 h2
    exact set_bits_pages_two size eb ptr off v p q h1 h2
  · intro p q hq hout
    exact set_bits_pages_outside size eb ptr off v p q hq hout
  · intro eb2 h
    exact get_bits_congr size eb eb2 ptr off (by rcases hsz with h | h | h | h <;> subst h <;> decide) h
  · exact (set_token_bits_eq size eb tok ptr off v htok).1
  · exact (get_token_bits_eq size eb tok ptr off htok).1

theorem C3_setget_bounds_safety_witness :
    (8 = 1 ∨ 8 = 2 ∨ 8 = 4 ∨ 8 = 8) ∧
    0 + 4090 + 8 ≤ (extent_buffer.mk 0 16384 (fun _ _ => 0)).len ∧
    token_wf (apfs_map_token.mk 0 0) ∧
    check_setget_bounds (extent_buffer.mk 0 16384 (fun _ _ => 0)) 0 4090 8 = true ∧
    (apfs_set_bits 8 (extent_buffer.mk 0 16384 (fun _ _ => 0)) 0 4090 5).pages 2 7 =
      (extent_buffer.mk 0 16384 (fun _ _ => 0)).pages 2 7 ∧
    (apfs_set_bits 8 (extent_buffer.mk 0 16384 (fun _ _ => 0)) 0 4090 5).pages 0 0 =
      (extent_buffer.mk 0 16384 (fun _ _ => 0)).pages 0 0 ∧
    (apfs_set_token_bits 8 (extent_buffer.mk 0 16384 (fun _ _ => 0))
        (apfs_map_token.mk 0 0) 0 4090 5).1 =
      apfs_set_bits 8 (extent_buffer.mk 0 16384 (fun _ _ => 0)) 0 4090 5 ∧
    (apfs_get_token_bits 8 (extent_buffer.mk 0 16384 (fun _ _ => 0))
        (apfs_map_token.mk 0 0) 0 4090).1 =
      apfs_get_bits 8 (extent_buffer.mk 0 16384 (fun _ _ => 0)) 0 4090 :=
  ⟨by decide, by decide, by decide,
    (C3_setget_bounds_safety 8 (extent_buffer.mk 0 16384 (fun _ _ => 0)) 0 4090 5
      (apfs_map_token.mk 0 0) (by decide) (by decide) (by decide)).1,
    (C3_setget_bounds_safety 8 (extent_buffer.mk 0 16384 (fun _ _ => 0)) 0 4090 5
      (apfs_map_token.mk 0 0) (by decide) (by decide) (by decide)).2.1 2 7
      (by decide) (by decide),
    (C3_setget_bounds_safety 8 (extent_buffer.mk 0 16384 (fun _ _ => 0)) 0 4090 5
      (apfs_map_token.mk 0 0) (by decide) (by decide) (by decide)).2.2.1 0 0
      (by decide) (by decide),
    (C3_setget_bounds_safety 8 (extent_buffer.mk 0 16384 (fun _ _ => 0)) 0 4090 5
      (apfs_map_token.mk 0 0) (by decide) (by decide) (by decide)).2.2.2.2.1,
    (C3_setget_bounds_safety 8 (extent_buffer.mk 0 16384 (fun _ _ => 0)) 0 4090 5
      (apfs_map_token.mk 0 0) (by decide) (by decide) (by decide)).2.2.2.2.2⟩

/-- C4: running any sequence of valid accesses with the token-carrying
accessors from any well-formed initial token yields the same read values and
the same final buffer as the plain accessors. -/
theorem C4_token_equivalence (eb : extent_buffer) (tok : apfs_map_token) (ops : List vc_op)
    (htok : token_wf tok)
    (hvalid : ∀ op ∈ ops, vc_op_ok eb.len op = true) :
    (run_ops_token eb tok ops).1 = (run_ops eb ops).1 ∧
    (run_ops_token eb tok ops).2.2 = (run_ops eb ops).2 :=
  run_ops_token_eq ops eb tok htok

theorem C4_token_equivalence_witness :
    token_wf (apfs_map_token.mk 0 0) ∧
    (∀ op ∈ [vc_op.set 8 0 4090 12345, vc_op.get 8 0 4090],
      vc_op_ok (extent_buffer.mk 0 16384 (fun _ _ => 0)).len op = true) ∧
    ((run_ops_token (extent_buffer.mk 0 16384 (fun _ _ => 0)) (apfs_map_token.mk 0 0)
        [vc_op.set 8 0 4090 12345, vc_op.get 8 0 4090]).1 =
      (run_ops (extent_buffer.mk 0 16384 (fun _ _ => 0))
        [vc_op.set 8 0 4090 12345, vc_op.get 8 0 4090]).1 ∧
    (run_ops_token (extent_buffer.mk 0 16384 (fun _ _ => 0)) (apfs_map_token.mk 0 0)
        [vc_op.set 8 0 4090 12345, vc_op.get 8 0 4090]).2.2 =
      (run_ops (extent_buffer.mk 0 16384 (fun _ _ => 0))
        [vc_op.set 8 0 4090 12345, vc_op.get 8 0 4090]).2) :=
  ⟨by decide, by decide,
    C4_token_equivalence (extent_buffer.mk 0 16384 (fun _ _ => 0)) (apfs_map_token.mk 0 0)
      [vc_op.set 8 0 4090 12345, vc_op.get 8 0 4090] (by decide) (by decide)⟩

/-! ## Tree checker: shallow embedding of src/tree-checker.c

Item payloads are modelled as typed records (spec section 3, "Typed
payloads"); the field-accessor helpers of ctree.h are not part of src/ and are
modelled from the spec as plain record projections.  On-disk struct sizes and
key-type / objectid / flag constants are likewise declared in ctree.h only;
their values below follow the on-disk format the spec describes.

Every error return in tree-checker.c is `return -EUCLEAN` after emitting one
diagnostic line for a slot; a checker result is therefore modelled as either
`ok` (return 0) or `err slot tag` (return -EUCLEAN, diagnostic anchored at
`slot` with message `tag`).  `chunk_err` recovers its slot by scanning the
leaf (starting from -1); the model keeps the -1 anchor for chunk errors. -/

structure apfs_key where
  objectid : Nat
  type : Nat
  offset : Nat
deriving DecidableEq, Inhabited

/-- Modelled from the spec: the KeyOrder comparator `apfs_comp_cpu_keys` is
declared in ctree.h, which is not part of src/.  Per spec section 3 the order
is total and lexicographic on (objectid, type, offset); the result is
positive / negative / zero like the C comparator.  (The C function also takes
the extent buffer; the order uses only the two keys.) -/
def apfs_comp_cpu_keys (k1 k2 : apfs_key) : Int :=
  if k1.objectid > k2.objectid then 1
  else if k1.objectid < k2.objectid then -1
  else if k1.type > k2.type then 1
  else if k1.type < k2.type then -1
  else if k1.offset > k2.offset then 1
  else if k1.offset < k2.offset then -1
  else 0

/-- Diagnostic message tags, one per distinct error site in tree-checker.c. -/
inductive emsg where
  | bad_level | empty_root | zero_owner
  | bad_key_order | unexpected_item_end | slot_end_outside
  | file_offset_unaligned | prev_ino_mismatch
  | fe_item_size | fe_type | fe_compression | fe_encryption
  | fe_inline_offset | fe_inline_size | fe_reg_size | fe_unaligned
  | fe_end_overflow | fe_overlap
  | csum_objectid | csum_offset_unaligned | csum_size_unaligned | csum_overlap
  | inode_key_xattr | inode_key_objectid | inode_key_offset
  | root_key_zero | root_key_nonfs | root_key_reloc
  | dir_header_cross | dir_location_type | dir_type_range | dir_type_xattr
  | dir_xattr_type | dir_name_len | dir_name_data_len | dir_data_len
  | dir_data_cross | dir_hash
  | bg_size_zero | bg_item_size | bg_chunk_objectid | bg_used | bg_profile | bg_type
  | chunk_num_stripes_zero | chunk_ncopies | chunk_nparity | chunk_logical_unaligned
  | chunk_sectorsize | chunk_length | chunk_overflow | chunk_stripe_len
  | chunk_type_unrecognized | chunk_profile_bits | chunk_type_missing
  | chunk_system_mixed | chunk_mixed | chunk_stripe_table
  | chunk_item_size_small | chunk_item_size_mismatch
  | dev_objectid | dev_devid | dev_bytes_used
  | inode_generation | inode_transid | inode_mode_unknown | inode_mode_type
  | inode_nlink | inode_flags
  | root_item_size | root_generation | root_generation_v2 | root_last_snapshot
  | root_bytenr | root_level | root_drop_level | root_flags
  | ext_metadata_skinny | ext_objectid_unaligned | ext_tree_level | ext_item_size
  | ext_generation | ext_flags | ext_tree_len | ext_data_key_type
  | ext_data_len_unaligned | ext_data_full_backref | ext_tbi_level
  | ext_iref_overflow | ext_iref_size_overflow | ext_shared_block_unaligned
  | ext_dref_offset_unaligned | ext_sref_parent_unaligned | ext_unknown_ref_type
  | ext_padding | ext_refs_mismatch
  | skr_item_size | skr_objectid_unaligned | skr_offset_unaligned
  | dref_item_size | dref_objectid_unaligned | dref_offset_unaligned
  | iref_item_size | iref_overflow | iref_name_overflow
  | node_level | node_empty | node_null_ptr | node_unaligned_ptr | node_bad_key_order
deriving DecidableEq

/-- Result of a checker: `ok` models `return 0`; `err slot tag` models the
emission of diagnostic `tag` anchored at `slot` followed by `return -EUCLEAN`. -/
inductive cres where
  | ok : cres
  | err (slot : Int) (tag : emsg) : cres
deriving DecidableEq

/-! ### On-disk constants (declared in ctree.h, not in src/; modelled). -/

def APFS_MAX_LEVEL : Nat := 8

def APFS_INODE_ITEM_KEY : Nat := 1
def APFS_INODE_REF_KEY : Nat := 12
def APFS_XATTR_ITEM_KEY : Nat := 24
def APFS_DIR_ITEM_KEY : Nat := 84
def APFS_DIR_INDEX_KEY : Nat := 96
def APFS_EXTENT_DATA_KEY : Nat := 108
def APFS_EXTENT_CSUM_KEY : Nat := 128
def APFS_ROOT_ITEM_KEY : Nat := 132
def APFS_EXTENT_ITEM_KEY : Nat := 168
def APFS_METADATA_ITEM_KEY : Nat := 169
def APFS_TREE_BLOCK_REF_KEY : Nat := 176
def APFS_EXTENT_DATA_REF_KEY : Nat := 178
def APFS_SHARED_BLOCK_REF_KEY : Nat := 182
def APFS_SHARED_DATA_REF_KEY : Nat := 184
def APFS_BLOCK_GROUP_ITEM_KEY : Nat := 192
def APFS_DEV_ITEM_KEY : Nat := 216
def APFS_CHUNK_ITEM_KEY : Nat := 228

def U64_MOD : Nat := 2 ^ 64

def APFS_ROOT_TREE_OBJECTID : Nat := 1
def APFS_EXTENT_TREE_OBJECTID : Nat := 2
def APFS_CHUNK_TREE_OBJECTID : Nat := 3
def APFS_DEV_TREE_OBJECTID : Nat := 4
def APFS_FS_TREE_OBJECTID : Nat := 5
def APFS_ROOT_TREE_DIR_OBJECTID : Nat := 6
def APFS_DEV_ITEMS_OBJECTID : Nat := 1
def APFS_FIRST_CHUNK_TREE_OBJECTID : Nat := 256
def APFS_FIRST_FREE_OBJECTID : Nat := 256
def APFS_LAST_FREE_OBJECTID : Nat := U64_MOD - 256
def APFS_EXTENT_CSUM_OBJECTID : Nat := U64_MOD - 10
def APFS_FREE_INO_OBJECTID : Nat := U64_MOD - 12
def APFS_TREE_RELOC_OBJECTID : Nat := U64_MOD - 8
def APFS_DATA_RELOC_TREE_OBJECTID : Nat := U64_MOD - 9

def APFS_FT_XATTR : Nat := 8
def APFS_FT_MAX : Nat := 9
def APFS_NAME_LEN : Nat := 255
def XATTR_NAME_MAX : Nat := 255

def APFS_FILE_EXTENT_INLINE : Nat := 0
def APFS_FILE_EXTENT_REG : Nat := 1
def APFS_FILE_EXTENT_PREALLOC : Nat := 2
def APFS_NR_FILE_EXTENT_TYPES : Nat := 3
def APFS_COMPRESS_NONE : Nat := 0
def APFS_NR_COMPRESS_TYPES : Nat := 4

def APFS_BLOCK_GROUP_DATA : Nat := 1
def APFS_BLOCK_GROUP_SYSTEM : Nat := 2
def APFS_BLOCK_GROUP_METADATA : Nat := 4
def APFS_BLOCK_GROUP_RAID0 : Nat := 8
def APFS_BLOCK_GROUP_RAID1 : Nat := 16
def APFS_BLOCK_GROUP_DUP : Nat := 32
def APFS_BLOCK_GROUP_RAID10 : Nat := 64
def APFS_BLOCK_GROUP_RAID5 : Nat := 128
def APFS_BLOCK_GROUP_RAID6 : Nat := 256
def APFS_BLOCK_GROUP_TYPE_MASK : Nat :=
  APFS_BLOCK_GROUP_DATA ||| APFS_BLOCK_GROUP_SYSTEM ||| APFS_BLOCK_GROUP_METADATA
def APFS_BLOCK_GROUP_PROFILE_MASK : Nat :=
  APFS_BLOCK_GROUP_RAID0 ||| APFS_BLOCK_GROUP_RAID1 ||| APFS_BLOCK_GROUP_DUP |||
  APFS_BLOCK_GROUP_RAID10 ||| APFS_BLOCK_GROUP_RAID5 ||| APFS_BLOCK_GROUP_RAID6
def APFS_STRIPE_LEN : Nat := 65536

def APFS_FEATURE_INCOMPAT_MIXED_GROUPS : Nat := 4
def APFS_FEATURE_INCOMPAT_SKINNY_METADATA : Nat := 256

def APFS_EXTENT_FLAG_DATA : Nat := 1
def APFS_EXTENT_FLAG_TREE_BLOCK : Nat := 2
def APFS_BLOCK_FLAG_FULL_BACKREF : Nat := 256

def APFS_ROOT_SUBVOL_RDONLY : Nat := 1
def APFS_ROOT_SUBVOL_DEAD : Nat := 2 ^ 48

def S_IFMT : Nat := 0o170000
def S_IFSOCK : Nat := 0o140000
def S_IFLNK : Nat := 0o120000
def S_IFBLK : Nat := 0o060000
def S_IFDIR : Nat := 0o040000
def S_ISUID : Nat := 0o4000
def S_ISGID : Nat := 0o2000
def S_ISVTX : Nat := 0o1000
def APFS_INODE_FLAG_MASK : Nat := 0xFFF ||| 2 ^ 31

/-! Sizes (in bytes) of the packed on-disk structures, from their ctree.h
layouts: file-extent item 53 (inline data starts at 21), dir-item header 30,
inode-ref header 10, block-group item 24, extent-item header 24,
tree-block-info 18, inline ref header 9, extent-data ref 28, shared-data
ref 4, root item 439 (legacy 239), chunk 80 with one embedded 32-byte
stripe. -/

def APFS_FILE_EXTENT_INLINE_DATA_START : Nat := 21
def apfs_file_extent_item_size : Nat := 53
def apfs_dir_item_size : Nat := 30
def apfs_inode_ref_size : Nat := 10
def apfs_block_group_item_size : Nat := 24
def apfs_extent_item_size : Nat := 24
def apfs_tree_block_info_size : Nat := 18
def apfs_extent_inline_ref_hdr_size : Nat := 9
def apfs_extent_data_ref_size : Nat := 28
def apfs_shared_data_ref_size : Nat := 4
def apfs_root_item_size : Nat := 439
def apfs_legacy_root_item_size : Nat := 239
def apfs_chunk_size : Nat := 80
def apfs_stripe_size : Nat := 32

/-- ctree.h `apfs_chunk_item_size` (modelled): the chunk struct already embeds
one stripe. -/
def apfs_chunk_item_size (num_stripes : Nat) : Nat :=
  apfs_chunk_size + apfs_stripe_size * (num_stripes - 1)

/-- Population count (the model of `hweight64`; also the model of
`has_single_bit_set` / `is_power_of_2` via `popcount x = 1`).  The structural
fuel (`n` halves at least once per step, so `n` steps always suffice) keeps
the definition kernel-reducible. -/
def popcount_fuel : Nat → Nat → Nat
  | 0, _ => 0
  | fuel + 1, n => if n = 0 then 0 else n % 2 + popcount_fuel fuel (n / 2)

def popcount (n : Nat) : Nat := popcount_fuel n n

/-- `check_add_overflow` on u64 (the model is a Nat, so the overflow condition
is made explicit). -/
def u64_add_overflows (a b : Nat) : Prop := U64_MOD ≤ a + b

instance (a b : Nat) : Decidable (u64_add_overflows a b) := by
  unfold u64_add_overflows
  infer_instance

/-- C `ALIGN(x, a)` for power-of-two `a`: round `x` up to a multiple of `a`. -/
def ALIGN (x a : Nat) : Nat := (x + a - 1) / a * a

/-! ### Data model for leaves, nodes and typed item payloads -/

/-- struct apfs_file_extent_item (the members the checker reads). -/
structure apfs_file_extent_item where
  type : Nat
  compression : Nat
  encryption : Nat
  ram_bytes : Nat
  disk_bytenr : Nat
  disk_num_bytes : Nat
  offset : Nat
  num_bytes : Nat
deriving DecidableEq, Inhabited

/-- struct apfs_chunk (the members the checker reads). -/
structure apfs_chunk where
  length : Nat
  stripe_len : Nat
  type : Nat
  sector_size : Nat
  num_stripes : Nat
  sub_stripes : Nat
deriving DecidableEq, Inhabited

/-- struct apfs_block_group_item. -/
structure apfs_block_group_item where
  used : Nat
  chunk_objectid : Nat
  flags : Nat
deriving DecidableEq, Inhabited

/-- struct apfs_dev_item (the members the checker reads). -/
structure apfs_dev_item where
  devid : Nat
  total_bytes : Nat
  bytes_used : Nat
deriving DecidableEq, Inhabited

/-- struct apfs_inode_item (the members the checker reads). -/
structure apfs_inode_item where
  generation : Nat
  transid : Nat
  mode : Nat
  nlink : Nat
  flags : Nat
deriving DecidableEq, Inhabited

/-- struct apfs_root_item (the members the checker reads; for a legacy-sized
item the C code reads the missing tail as zero). -/
structure apfs_root_item where
  generation : Nat
  generation_v2 : Nat
  last_snapshot : Nat
  bytenr : Nat
  level : Nat
  drop_level : Nat
  flags : Nat
deriving DecidableEq, Inhabited

/-- One packed entry of a DIR_ITEM / DIR_INDEX / XATTR_ITEM payload
(struct apfs_dir_item header followed by name and xattr data bytes). -/
structure apfs_dir_item_entry where
  location : apfs_key
  transid : Nat
  data_len : Nat
  name_len : Nat
  dir_type : Nat
  name : List Nat
deriving DecidableEq, Inhabited

/-- One packed record of an INODE_REF payload (struct apfs_inode_ref header
followed by the name bytes). -/
structure apfs_inode_ref_rec where
  index : Nat
  name_len : Nat
  name : List Nat
deriving DecidableEq, Inhabited

/-- struct apfs_extent_data_ref. -/
structure apfs_extent_data_ref where
  root : Nat
  objectid : Nat
  offset : Nat
  count : Nat
deriving DecidableEq, Inhabited

/-- One typed inline back-reference inside an EXTENT_ITEM / METADATA_ITEM
payload.  The checker dispatches on the stored type byte, so a corrupt type is
representable (`unknown`); the constructors carry the fields the respective
reinterpretations (`apfs_extent_inline_ref` / `apfs_extent_data_ref` /
`apfs_shared_data_ref`) read. -/
inductive inline_ref where
  | tree_block (offset : Nat)
  | shared_block (offset : Nat)
  | extent_data (root objectid offset count : Nat)
  | shared_data (offset count : Nat)
  | unknown (rt : Nat) (offset : Nat)
deriving DecidableEq

instance : Inhabited inline_ref := ⟨inline_ref.unknown 0 0⟩

/-- ctree.h `apfs_extent_inline_ref_type` (modelled): the stored type byte. -/
def inline_ref_type : inline_ref → Nat
  | .tree_block _ => APFS_TREE_BLOCK_REF_KEY
  | .shared_block _ => APFS_SHARED_BLOCK_REF_KEY
  | .extent_data _ _ _ _ => APFS_EXTENT_DATA_REF_KEY
  | .shared_data _ _ => APFS_SHARED_DATA_REF_KEY
  | .unknown rt _ => rt

/-- ctree.h `apfs_extent_inline_ref_offset` (modelled): the 8 bytes after the
type byte; for an extent-data ref those bytes overlay `dref->root`. -/
def inline_ref_offset : inline_ref → Nat
  | .tree_block o => o
  | .shared_block o => o
  | .extent_data root _ _ _ => root
  | .shared_data o _ => o
  | .unknown _ o => o

/-- The `(struct apfs_extent_data_ref *)(&iref->offset)` reinterpretation:
meaningful only when the stored type is EXTENT_DATA_REF. -/
def inline_ref_dref : inline_ref → apfs_extent_data_ref
  | .extent_data root objectid offset count => ⟨root, objectid, offset, count⟩
  | _ => default

/-- The `(struct apfs_shared_data_ref *)(iref + 1)` reinterpretation:
meaningful only when the stored type is SHARED_DATA_REF. -/
def inline_ref_sref_count : inline_ref → Nat
  | .shared_data _ count => count
  | _ => 0

/-- ctree.h `apfs_extent_inline_ref_size` (modelled): 9 for tree-block and
shared-block refs, 28 + 1 for an inline extent-data ref, 4 + 9 for an inline
shared-data ref; for an unknown type the C helper hits BUG() and falls through
to `return 0`. -/
def apfs_extent_inline_ref_size (t : Nat) : Nat :=
  if t = APFS_TREE_BLOCK_REF_KEY ∨ t = APFS_SHARED_BLOCK_REF_KEY then 9
  else if t = APFS_EXTENT_DATA_REF_KEY then 29
  else if t = APFS_SHARED_DATA_REF_KEY then 13
  else 0

/-- EXTENT_ITEM / METADATA_ITEM payload: the apfs_extent_item header, the
optional apfs_tree_block_info record, and the packed inline references. -/
structure apfs_extent_item_data where
  refs : Nat
  generation : Nat
  flags : Nat
  tree_block_level : Nat
  inline_refs : List inline_ref
deriving DecidableEq, Inhabited

/-- The typed payload carried by one leaf item (spec section 3, "Typed
payloads").  `raw` stands for payload bytes the checker never interprets
beyond their size (csum items, simple keyed refs, unknown types). -/
inductive item_data where
  | file_extent (fi : apfs_file_extent_item)
  | chunk (c : apfs_chunk)
  | block_group (bg : apfs_block_group_item)
  | dev (d : apfs_dev_item)
  | inode (ii : apfs_inode_item)
  | root (ri : apfs_root_item)
  | dir (entries : List apfs_dir_item_entry)
  | inode_refs (recs : List apfs_inode_ref_rec)
  | extent (ed : apfs_extent_item_data)
  | extent_data_refs (drefs : List apfs_extent_data_ref)
  | raw
deriving DecidableEq

instance : Inhabited item_data := ⟨item_data.raw⟩

/-- One leaf item: its key plus the (data-offset, data-size) pair from the
item header, and the typed payload stored at that offset. -/
structure apfs_item where
  key : apfs_key
  offset : Nat
  size : Nat
  data : item_data
deriving DecidableEq, Inhabited

/-- Filesystem-wide configuration reachable from a block
(struct apfs_fs_info plus the super-block fields the checker reads).
`name_hash` models `apfs_name_hash` together with the super block's
case-sensitivity flag; `leaf_data_size` models `APFS_LEAF_DATA_SIZE(fs_info)`
(node size minus the block header). -/
structure apfs_fs_info where
  sectorsize : Nat
  nodesize : Nat
  csum_size : Nat
  super_generation : Nat
  incompat_flags : Nat
  leaf_data_size : Nat
  case_insensitive : Bool
  name_hash : List Nat → Bool → Nat

/-- A leaf block: header fields plus the item table (modelled from the spec's
MetadataBlock/Item data model; the header accessors `apfs_header_level`,
`apfs_header_owner`, `apfs_header_nritems`, `apfs_header_flag` and the item
accessors `apfs_item_key_to_cpu`, `apfs_item_offset_nr`, `apfs_item_size_nr`,
`apfs_item_ptr` of ctree.h are not part of src/ and become projections of this
record). -/
structure leaf_block where
  fs_info : apfs_fs_info
  bytenr : Nat
  owner : Nat
  level : Nat
  reloc_flag : Bool
  items : List apfs_item

/-- One node pointer (struct apfs_key_ptr). -/
structure apfs_key_ptr where
  key : apfs_key
  blockptr : Nat
  generation : Nat
deriving DecidableEq, Inhabited

/-- An interior node block. -/
structure node_block where
  fs_info : apfs_fs_info
  bytenr : Nat
  owner : Nat
  level : Nat
  ptrs : List apfs_key_ptr

def apfs_header_nritems (leaf : leaf_block) : Nat := leaf.items.length

def apfs_header_level (leaf : leaf_block) : Nat := leaf.level

def apfs_header_owner (leaf : leaf_block) : Nat := leaf.owner

def item_nr (leaf : leaf_block) (slot : Nat) : apfs_item := leaf.items.getD slot default

/-- ctree.h `apfs_item_key_to_cpu` (modelled). -/
def item_key_nr (leaf : leaf_block) (slot : Nat) : apfs_key := (item_nr leaf slot).key

/-- ctree.h `apfs_item_offset_nr` (modelled). -/
def item_offset_nr (leaf : leaf_block) (slot : Nat) : Nat := (item_nr leaf slot).offset

/-- ctree.h `apfs_item_size_nr` (modelled). -/
def item_size_nr (leaf : leaf_block) (slot : Nat) : Nat := (item_nr leaf slot).size

/-- ctree.h `apfs_item_end_nr` (modelled): data offset plus data size. -/
def item_end_nr (leaf : leaf_block) (slot : Nat) : Nat :=
  item_offset_nr leaf slot + item_size_nr leaf slot

/-- `APFS_LEAF_DATA_SIZE(fs_info)` (modelled as configuration). -/
def APFS_LEAF_DATA_SIZE (fs : apfs_fs_info) : Nat := fs.leaf_data_size

/-- `APFS_MAX_XATTR_SIZE(fs_info)`: leaf data size minus one 25-byte item
header (modelled). -/
def APFS_MAX_XATTR_SIZE (fs : apfs_fs_info) : Nat := fs.leaf_data_size - 25

/-- The `apfs_item_ptr(leaf, slot, struct apfs_file_extent_item)` cast: yields
the stored file-extent record when the payload is one. -/
def item_file_extent (it : apfs_item) : apfs_file_extent_item :=
  match it.data with
  | .file_extent fi => fi
  | _ => default

def item_chunk (it : apfs_item) : apfs_chunk :=
  match it.data with
  | .chunk c => c
  | _ => default

def item_block_group (it : apfs_item) : apfs_block_group_item :=
  match it.data with
  | .block_group bg => bg
  | _ => default

def item_dev (it : apfs_item) : apfs_dev_item :=
  match it.data with
  | .dev d => d
  | _ => default

def item_inode (it : apfs_item) : apfs_inode_item :=
  match it.data with
  | .inode ii => ii
  | _ => default

def item_root (it : apfs_item) : apfs_root_item :=
  match it.data with
  | .root ri => ri
  | _ => default

def item_dir_entries (it : apfs_item) : List apfs_dir_item_entry :=
  match it.data with
  | .dir entries => entries
  | _ => []

def item_inode_refs (it : apfs_item) : List apfs_inode_ref_rec :=
  match it.data with
  | .inode_refs recs => recs
  | _ => []

def item_extent (it : apfs_item) : apfs_extent_item_data :=
  match it.data with
  | .extent ed => ed
  | _ => default

def item_extent_data_refs (it : apfs_item) : List apfs_extent_data_ref :=
  match it.data with
  | .extent_data_refs drefs => drefs
  | _ => []

/-- ctree.h `is_fstree` (modelled from the spec's reserved free-object range):
the filesystem tree itself or a subvolume/reloc tree id in
[FIRST_FREE, LAST_FREE]. -/
def is_fstree (rootid : Nat) : Prop :=
  rootid = APFS_FS_TREE_OBJECTID ∨
  (APFS_FIRST_FREE_OBJECTID ≤ rootid ∧ rootid ≤ APFS_LAST_FREE_OBJECTID)

instance (rootid : Nat) : Decidable (is_fstree rootid) := by
  unfold is_fstree
  infer_instance

def node_key_nr (node : node_block) (slot : Nat) : apfs_key :=
  (node.ptrs.getD slot default).key

/-- ctree.h `apfs_node_blockptr` (modelled). -/
def apfs_node_blockptr (node : node_block) (slot : Nat) : Nat :=
  (node.ptrs.getD slot default).blockptr

/-! ### Item checkers (src/tree-checker.c, in source order) -/

/-- src/tree-checker.c `file_extent_end`. -/
def file_extent_end (leaf : leaf_block) (key : apfs_key)
    (extent : apfs_file_extent_item) : Nat :=
  if extent.type = APFS_FILE_EXTENT_INLINE then
    ALIGN (key.offset + extent.ram_bytes) leaf.fs_info.sectorsize
  else
    key.offset + extent.num_bytes

/-- src/tree-checker.c `check_prev_ino` (the ASSERT on the caller's key type
is a debug aid only). -/
def check_prev_ino (leaf : leaf_block) (key : apfs_key) (slot : Nat)
    (prev_key : apfs_key) : Bool :=
  if slot = 0 then true
  else if ¬ is_fstree (apfs_header_owner leaf) then true
  else if key.objectid = prev_key.objectid then true
  else false

/-- src/tree-checker.c `check_extent_data_item`.  The five CHECK_FE_ALIGNED
macro calls share one tag here (`fe_unaligned`); each of them reports the same
slot and returns -EUCLEAN. -/
def check_extent_data_item (leaf : leaf_block) (key : apfs_key) (slot : Nat)
    (prev_key : apfs_key) : cres :=
  let fs := leaf.fs_info
  let sectorsize := fs.sectorsize
  let item_size := item_size_nr leaf slot
  if ¬ (key.offset % sectorsize = 0) then cres.err slot emsg.file_offset_unaligned
  else if ¬ (check_prev_ino leaf key slot prev_key = true) then
    cres.err slot emsg.prev_ino_mismatch
  else
    let fi := item_file_extent (item_nr leaf slot)
    if item_size < APFS_FILE_EXTENT_INLINE_DATA_START then cres.err slot emsg.fe_item_size
    else if fi.type ≥ APFS_NR_FILE_EXTENT_TYPES then cres.err slot emsg.fe_type
    else if fi.compression ≥ APFS_NR_COMPRESS_TYPES then cres.err slot emsg.fe_compression
    else if fi.encryption ≠ 0 then cres.err slot emsg.fe_encryption
    else if fi.type = APFS_FILE_EXTENT_INLINE then
      if key.offset ≠ 0 then cres.err slot emsg.fe_inline_offset
      else if fi.compression ≠ APFS_COMPRESS_NONE then cres.ok
      else if item_size ≠ APFS_FILE_EXTENT_INLINE_DATA_START + fi.ram_bytes then
        cres.err slot emsg.fe_inline_size
      else cres.ok
    else if item_size ≠ apfs_file_extent_item_size then cres.err slot emsg.fe_reg_size
    else if ¬ (fi.ram_bytes % sectorsize = 0) ∨ ¬ (fi.disk_bytenr % sectorsize = 0) ∨
        ¬ (fi.disk_num_bytes % sectorsize = 0) ∨ ¬ (fi.offset % sectorsize = 0) ∨
        ¬ (fi.num_bytes % sectorsize = 0) then
      cres.err slot emsg.fe_unaligned
    else if u64_add_overflows fi.num_bytes key.offset then cres.err slot emsg.fe_end_overflow
    else if slot > 0 ∧ prev_key.objectid = key.objectid ∧
        prev_key.type = APFS_EXTENT_DATA_KEY then
      let prev_fi := item_file_extent (item_nr leaf (slot - 1))
      let prev_end := file_extent_end leaf prev_key prev_fi
      if prev_end > key.offset then cres.err (slot - 1 : Nat) emsg.fe_overlap
      else cres.ok
    else cres.ok

/-- src/tree-checker.c `check_csum_item`. -/
def check_csum_item (leaf : leaf_block) (key : apfs_key) (slot : Nat)
    (prev_key : apfs_key) : cres :=
  let fs := leaf.fs_info
  let sectorsize := fs.sectorsize
  let csumsize := fs.csum_size
  if key.objectid ≠ APFS_EXTENT_CSUM_OBJECTID then cres.err slot emsg.csum_objectid
  else if ¬ (key.offset % sectorsize = 0) then cres.err slot emsg.csum_offset_unaligned
  else if ¬ (item_size_nr leaf slot % csumsize = 0) then cres.err slot emsg.csum_size_unaligned
  else if slot > 0 ∧ prev_key.type = APFS_EXTENT_CSUM_KEY then
    let prev_item_size := item_size_nr leaf (slot - 1)
    let prev_csum_end := prev_item_size / csumsize * sectorsize + prev_key.offset
    if prev_csum_end > key.offset then cres.err (slot - 1 : Nat) emsg.csum_overlap
    else cres.ok
  else cres.ok

/-- src/tree-checker.c `check_inode_key` (location-key shape for inode/xattr
keys; the item key at `slot` decides only which reporter is used). -/
def check_inode_key (leaf : leaf_block) (key : apfs_key) (slot : Nat) : cres :=
  let item_key := item_key_nr leaf slot
  if item_key.type = APFS_XATTR_ITEM_KEY then
    if key.objectid ≠ 0 ∨ key.type ≠ 0 ∨ key.offset ≠ 0 then
      cres.err slot emsg.inode_key_xattr
    else cres.ok
  else if (key.objectid < APFS_FIRST_FREE_OBJECTID ∨
        key.objectid > APFS_LAST_FREE_OBJECTID) ∧
      key.objectid ≠ APFS_ROOT_TREE_DIR_OBJECTID ∧
      key.objectid ≠ APFS_FREE_INO_OBJECTID then
    cres.err slot emsg.inode_key_objectid
  else if key.offset ≠ 0 then cres.err slot emsg.inode_key_offset
  else cres.ok

/-- src/tree-checker.c `check_root_key`. -/
def check_root_key (leaf : leaf_block) (key : apfs_key) (slot : Nat) : cres :=
  let item_key := item_key_nr leaf slot
  let is_root_item := item_key.type = APFS_ROOT_ITEM_KEY
  if key.objectid = 0 then cres.err slot emsg.root_key_zero
  else if ¬ is_fstree key.objectid ∧ ¬ is_root_item then cres.err slot emsg.root_key_nonfs
  else if key.objectid = APFS_TREE_RELOC_OBJECTID ∧ key.offset = 0 then
    cres.err slot emsg.root_key_reloc
  else cres.ok

/-- The `while (cur < item_size)` walk of src/tree-checker.c `check_dir_item`
over the packed entries; when the walk runs past the recorded entries the
C code would read whatever bytes follow, modelled as an all-zero entry. -/
def check_dir_entries (leaf : leaf_block) (key : apfs_key) (slot : Nat)
    (item_size : Nat) (entries : List apfs_dir_item_entry) (cur : Nat) : cres :=
  if h : cur < item_size then
    let di := entries.headD default
    if cur + apfs_dir_item_size > item_size then cres.err slot emsg.dir_header_cross
    else
      let location_key := di.location
      let kres : cres :=
        if location_key.type = APFS_ROOT_ITEM_KEY then check_root_key leaf location_key slot
        else if location_key.type = APFS_INODE_ITEM_KEY ∨ location_key.type = 0 then
          check_inode_key leaf location_key slot
        else cres.err slot emsg.dir_location_type
      match kres with
      | cres.err s m => cres.err s m
      | cres.ok =>
        let dir_type := di.dir_type
        if dir_type ≥ APFS_FT_MAX then cres.err slot emsg.dir_type_range
        else if key.type = APFS_XATTR_ITEM_KEY ∧ dir_type ≠ APFS_FT_XATTR then
          cres.err slot emsg.dir_type_xattr
        else if dir_type = APFS_FT_XATTR ∧ key.type ≠ APFS_XATTR_ITEM_KEY then
          cres.err slot emsg.dir_xattr_type
        else
          let max_name_len := if dir_type = APFS_FT_XATTR then XATTR_NAME_MAX
                              else APFS_NAME_LEN
          let name_len := di.name_len
          let data_len := di.data_len
          if name_len > max_name_len then cres.err slot emsg.dir_name_len
          else if name_len + data_len > APFS_MAX_XATTR_SIZE leaf.fs_info then
            cres.err slot emsg.dir_name_data_len
          else if data_len ≠ 0 ∧ dir_type ≠ APFS_FT_XATTR then
            cres.err slot emsg.dir_data_len
          else
            let total_size := apfs_dir_item_size + name_len + data_len
            if cur + total_size > item_size then cres.err slot emsg.dir_data_cross
            else if (key.type = APFS_DIR_ITEM_KEY ∨ key.type = APFS_XATTR_ITEM_KEY) ∧
                key.offset ≠ leaf.fs_info.name_hash (di.name.take name_len)
                  leaf.fs_info.case_insensitive then
              cres.err slot emsg.dir_hash
            else check_dir_entries leaf key slot item_size entries.tail (cur + total_size)
  else cres.ok
termination_by item_size - cur
decreasing_by
  simp only [apfs_dir_item_size] at *
  omega

/-- src/tree-checker.c `check_dir_item`. -/
def check_dir_item (leaf : leaf_block) (key : apfs_key) (prev_key : apfs_key)
    (slot : Nat) : cres :=
  if ¬ (check_prev_ino leaf key slot prev_key = true) then
    cres.err slot emsg.prev_ino_mismatch
  else
    check_dir_entries leaf key slot (item_size_nr leaf slot)
      (item_dir_entries (item_nr leaf slot)) 0

/-- src/tree-checker.c `check_block_group_item`. -/
def check_block_group_item (leaf : leaf_block) (key : apfs_key) (slot : Nat) : cres :=
  let item_size := item_size_nr leaf slot
  if key.offset = 0 then cres.err slot emsg.bg_size_zero
  else if item_size ≠ apfs_block_group_item_size then cres.err slot emsg.bg_item_size
  else
    let bgi := item_block_group (item_nr leaf slot)
    if bgi.chunk_objectid ≠ APFS_FIRST_CHUNK_TREE_OBJECTID then
      cres.err slot emsg.bg_chunk_objectid
    else if bgi.used > key.offset then cres.err slot emsg.bg_used
    else
      let flags := bgi.flags
      if popcount (flags &&& APFS_BLOCK_GROUP_PROFILE_MASK) > 1 then
        cres.err slot emsg.bg_profile
      else
        let bg_type := flags &&& APFS_BLOCK_GROUP_TYPE_MASK
        if bg_type ≠ APFS_BLOCK_GROUP_DATA ∧ bg_type ≠ APFS_BLOCK_GROUP_METADATA ∧
            bg_type ≠ APFS_BLOCK_GROUP_SYSTEM ∧
            bg_type ≠ (APFS_BLOCK_GROUP_METADATA ||| APFS_BLOCK_GROUP_DATA) then
          cres.err slot emsg.bg_type
        else cres.ok

/-- Modelled from the spec and the volumes.c raid table (not in src/): the
minimum number of copies each profile stores (`apfs_raid_array[...].ncopies`
looked up through `apfs_bg_flags_to_raid_index`). -/
def raid_ncopies (type : Nat) : Nat :=
  if type &&& APFS_BLOCK_GROUP_RAID10 ≠ 0 then 2
  else if type &&& APFS_BLOCK_GROUP_RAID1 ≠ 0 then 2
  else if type &&& APFS_BLOCK_GROUP_DUP ≠ 0 then 2
  else if type &&& APFS_BLOCK_GROUP_RAID0 ≠ 0 then 1
  else if type &&& APFS_BLOCK_GROUP_RAID5 ≠ 0 then 1
  else if type &&& APFS_BLOCK_GROUP_RAID6 ≠ 0 then 1
  else 1

/-- Modelled from the spec and the volumes.c raid table (not in src/): the
parity stripe count of each profile (`apfs_raid_array[...].nparity`). -/
def raid_nparity (type : Nat) : Nat :=
  if type &&& APFS_BLOCK_GROUP_RAID10 ≠ 0 then 0
  else if type &&& APFS_BLOCK_GROUP_RAID1 ≠ 0 then 0
  else if type &&& APFS_BLOCK_GROUP_DUP ≠ 0 then 0
  else if type &&& APFS_BLOCK_GROUP_RAID0 ≠ 0 then 0
  else if type &&& APFS_BLOCK_GROUP_RAID5 ≠ 0 then 1
  else if type &&& APFS_BLOCK_GROUP_RAID6 ≠ 0 then 2
  else 0

/-- src/tree-checker.c `apfs_check_chunk_valid`.  The `type & ~(TYPE_MASK |
PROFILE_MASK)` test is modelled as `type &&& (TYPE ||| PROFILE) = type`
failing, which is equivalent for any bit pattern. -/
def apfs_check_chunk_valid (leaf : leaf_block) (chunk : apfs_chunk)
    (logical : Nat) : cres :=
  let fs := leaf.fs_info
  let length := chunk.length
  let stripe_len := chunk.stripe_len
  let num_stripes := chunk.num_stripes
  let sub_stripes := chunk.sub_stripes
  let ctype := chunk.type
  let ncopies := raid_ncopies ctype
  let nparity := raid_nparity ctype
  if num_stripes = 0 then cres.err (-1) emsg.chunk_num_stripes_zero
  else if num_stripes < ncopies then cres.err (-1) emsg.chunk_ncopies
  else if nparity ≠ 0 ∧ num_stripes = nparity then cres.err (-1) emsg.chunk_nparity
  else if ¬ (logical % fs.sectorsize = 0) then cres.err (-1) emsg.chunk_logical_unaligned
  else if chunk.sector_size ≠ fs.sectorsize then cres.err (-1) emsg.chunk_sectorsize
  else if length = 0 ∨ ¬ (length % fs.sectorsize = 0) then cres.err (-1) emsg.chunk_length
  else if u64_add_overflows logical length then cres.err (-1) emsg.chunk_overflow
  else if ¬ (popcount stripe_len = 1) ∨ stripe_len ≠ APFS_STRIPE_LEN then
    cres.err (-1) emsg.chunk_stripe_len
  else if ctype &&& (APFS_BLOCK_GROUP_TYPE_MASK ||| APFS_BLOCK_GROUP_PROFILE_MASK) ≠ ctype then
    cres.err (-1) emsg.chunk_type_unrecognized
  else if ¬ (popcount (ctype &&& APFS_BLOCK_GROUP_PROFILE_MASK) = 1) ∧
      ctype &&& APFS_BLOCK_GROUP_PROFILE_MASK ≠ 0 then
    cres.err (-1) emsg.chunk_profile_bits
  else if ctype &&& APFS_BLOCK_GROUP_TYPE_MASK = 0 then cres.err (-1) emsg.chunk_type_missing
  else if ctype &&& APFS_BLOCK_GROUP_SYSTEM ≠ 0 ∧
      ctype &&& (APFS_BLOCK_GROUP_METADATA ||| APFS_BLOCK_GROUP_DATA) ≠ 0 then
    cres.err (-1) emsg.chunk_system_mixed
  else if fs.incompat_flags &&& APFS_FEATURE_INCOMPAT_MIXED_GROUPS = 0 ∧
      ctype &&& APFS_BLOCK_GROUP_METADATA ≠ 0 ∧ ctype &&& APFS_BLOCK_GROUP_DATA ≠ 0 then
    cres.err (-1) emsg.chunk_mixed
  else if (ctype &&& APFS_BLOCK_GROUP_RAID10 ≠ 0 ∧ sub_stripes ≠ 2) ∨
      (ctype &&& APFS_BLOCK_GROUP_RAID1 ≠ 0 ∧ num_stripes ≠ 2) ∨
      (ctype &&& APFS_BLOCK_GROUP_RAID5 ≠ 0 ∧ num_stripes < 2) ∨
      (ctype &&& APFS_BLOCK_GROUP_RAID6 ≠ 0 ∧ num_stripes < 3) ∨
      (ctype &&& APFS_BLOCK_GROUP_DUP ≠ 0 ∧ num_stripes ≠ 2) ∨
      (ctype &&& APFS_BLOCK_GROUP_PROFILE_MASK = 0 ∧ num_stripes ≠ 1) then
    cres.err (-1) emsg.chunk_stripe_table
  else cres.ok

/-- src/tree-checker.c `check_leaf_chunk_item`. -/
def check_leaf_chunk_item (leaf : leaf_block) (chunk : apfs_chunk)
    (key : apfs_key) (slot : Nat) : cres :=
  if item_size_nr leaf slot < apfs_chunk_size then
    cres.err (-1) emsg.chunk_item_size_small
  else
    let num_stripes := chunk.num_stripes
    if num_stripes = 0 then apfs_check_chunk_valid leaf chunk key.offset
    else if apfs_chunk_item_size num_stripes ≠ item_size_nr leaf slot then
      cres.err (-1) emsg.chunk_item_size_mismatch
    else apfs_check_chunk_valid leaf chunk key.offset

/-- src/tree-checker.c `check_dev_item`. -/
def check_dev_item (leaf : leaf_block) (key : apfs_key) (slot : Nat) : cres :=
  if key.objectid ≠ APFS_DEV_ITEMS_OBJECTID then cres.err slot emsg.dev_objectid
  else
    let ditem := item_dev (item_nr leaf slot)
    if ditem.devid ≠ key.offset then cres.err slot emsg.dev_devid
    else if ditem.bytes_used > ditem.total_bytes then cres.err slot emsg.dev_bytes_used
    else cres.ok

/-- src/tree-checker.c `check_inode_item`. -/
def check_inode_item (leaf : leaf_block) (key : apfs_key) (slot : Nat) : cres :=
  let fs := leaf.fs_info
  let super_gen := fs.super_generation
  match check_inode_key leaf key slot with
  | cres.err s m => cres.err s m
  | cres.ok =>
    let iitem := item_inode (item_nr leaf slot)
    if iitem.generation > super_gen + 1 then cres.err slot emsg.inode_generation
    else if iitem.transid > super_gen + 1 then cres.err slot emsg.inode_transid
    else
      let mode := iitem.mode
      if mode &&& (S_IFMT ||| S_ISUID ||| S_ISGID ||| S_ISVTX ||| 0o777) ≠ mode then
        cres.err slot emsg.inode_mode_unknown
      else if ¬ (popcount (mode &&& S_IFMT) = 1) ∧ ¬ (mode &&& S_IFMT = S_IFLNK) ∧
          ¬ (mode &&& S_IFMT = S_IFBLK) ∧ ¬ (mode &&& S_IFMT = S_IFSOCK) then
        cres.err slot emsg.inode_mode_type
      else if mode &&& S_IFMT = S_IFDIR ∧ iitem.nlink > 1 then cres.err slot emsg.inode_nlink
      else if iitem.flags &&& APFS_INODE_FLAG_MASK ≠ iitem.flags then
        cres.err slot emsg.inode_flags
      else cres.ok

/-- src/tree-checker.c `check_root_item`. -/
def check_root_item (leaf : leaf_block) (key : apfs_key) (slot : Nat) : cres :=
  let fs := leaf.fs_info
  match check_root_key leaf key slot with
  | cres.err s m => cres.err s m
  | cres.ok =>
    let item_size := item_size_nr leaf slot
    if item_size ≠ apfs_root_item_size ∧ item_size ≠ apfs_legacy_root_item_size then
      cres.err slot emsg.root_item_size
    else
      let ri := item_root (item_nr leaf slot)
      if ri.generation > fs.super_generation + 1 then cres.err slot emsg.root_generation
      else if ri.generation_v2 > fs.super_generation + 1 then
        cres.err slot emsg.root_generation_v2
      else if ri.last_snapshot > fs.super_generation + 1 then
        cres.err slot emsg.root_last_snapshot
      else if ¬ (ri.bytenr % fs.sectorsize = 0) then cres.err slot emsg.root_bytenr
      else if ri.level ≥ APFS_MAX_LEVEL then cres.err slot emsg.root_level
      else if ri.drop_level ≥ APFS_MAX_LEVEL then cres.err slot emsg.root_drop_level
      else if ri.flags &&& (APFS_ROOT_SUBVOL_RDONLY ||| APFS_ROOT_SUBVOL_DEAD) ≠ ri.flags then
        cres.err slot emsg.root_flags
      else cres.ok

/-- The `while (ptr < end)` walk of src/tree-checker.c `check_extent_item`
over the packed inline references (`ptr`/`e` relative to the item start), 
including the trailing padding check and the final refcount-accounting check
the C code performs after the loop.  Walking past the recorded references is
modelled as reading a zero type byte (which the switch rejects).  The literal
advances 9 / 29 / 13 equal `apfs_extent_inline_ref_size` of the branch type. -/
def check_inline_refs (fs : apfs_fs_info) (slot : Nat) (rs : List inline_ref)
    (ptr e acc total_refs : Nat) : cres :=
  if h : ptr < e then
    if ptr + apfs_extent_inline_ref_hdr_size > e then cres.err slot emsg.ext_iref_overflow
    else
      let iref := rs.headD default
      let inline_type := inline_ref_type iref
      let inline_offset := inline_ref_offset iref
      if ptr + apfs_extent_inline_ref_size inline_type > e then
        cres.err slot emsg.ext_iref_size_overflow
      else if inline_type = APFS_TREE_BLOCK_REF_KEY then
        check_inline_refs fs slot rs.tail (ptr + 9) e (acc + 1) total_refs
      else if inline_type = APFS_SHARED_BLOCK_REF_KEY then
        if ¬ (inline_offset % fs.sectorsize = 0) then
          cres.err slot emsg.ext_shared_block_unaligned
        else check_inline_refs fs slot rs.tail (ptr + 9) e (acc + 1) total_refs
      else if inline_type = APFS_EXTENT_DATA_REF_KEY then
        let dref := inline_ref_dref iref
        if ¬ (dref.offset % fs.sectorsize = 0) then
          cres.err slot emsg.ext_dref_offset_unaligned
        else check_inline_refs fs slot rs.tail (ptr + 29) e (acc + dref.count) total_refs
      else if inline_type = APFS_SHARED_DATA_REF_KEY then
        if ¬ (inline_offset % fs.sectorsize = 0) then
          cres.err slot emsg.ext_sref_parent_unaligned
        else
          check_inline_refs fs slot rs.tail (ptr + 13) e
            (acc + inline_ref_sref_count iref) total_refs
      else cres.err slot emsg.ext_unknown_ref_type
  else if ptr ≠ e then cres.err slot emsg.ext_padding
  else if acc > total_refs then cres.err slot emsg.ext_refs_mismatch
  else cres.ok
termination_by e - ptr
decreasing_by all_goals omega

/-- src/tree-checker.c `check_extent_item` (offsets inside the item are kept
relative to the item start: the walk begins at the 24-byte header, or after
the 18-byte tree-block-info record when one is present, and ends at the item
size). -/
def check_extent_item (leaf : leaf_block) (key : apfs_key) (slot : Nat) : cres :=
  let fs := leaf.fs_info
  let item_size := item_size_nr leaf slot
  if key.type = APFS_METADATA_ITEM_KEY ∧
      fs.incompat_flags &&& APFS_FEATURE_INCOMPAT_SKINNY_METADATA = 0 then
    cres.err slot emsg.ext_metadata_skinny
  else if ¬ (key.objectid % fs.sectorsize = 0) then cres.err slot emsg.ext_objectid_unaligned
  else if key.type = APFS_METADATA_ITEM_KEY ∧ key.offset ≥ APFS_MAX_LEVEL then
    cres.err slot emsg.ext_tree_level
  else if item_size < apfs_extent_item_size then cres.err slot emsg.ext_item_size
  else
    let ed := item_extent (item_nr leaf slot)
    let flags := ed.flags
    let total_refs := ed.refs
    let generation := ed.generation
    if generation > fs.super_generation + 1 then cres.err slot emsg.ext_generation
    else if ¬ (popcount (flags &&& (APFS_EXTENT_FLAG_DATA |||
        APFS_EXTENT_FLAG_TREE_BLOCK)) = 1) then
      cres.err slot emsg.ext_flags
    else
      let is_tree_block := flags &&& APFS_EXTENT_FLAG_TREE_BLOCK ≠ 0
      let branch : cres :=
        if flags &&& APFS_EXTENT_FLAG_TREE_BLOCK ≠ 0 then
          if key.type = APFS_EXTENT_ITEM_KEY ∧ key.offset ≠ fs.nodesize then
            cres.err slot emsg.ext_tree_len
          else cres.ok
        else if key.type ≠ APFS_EXTENT_ITEM_KEY then cres.err slot emsg.ext_data_key_type
        else if ¬ (key.offset % fs.sectorsize = 0) then
          cres.err slot emsg.ext_data_len_unaligned
        else if flags &&& APFS_BLOCK_FLAG_FULL_BACKREF ≠ 0 then
          cres.err slot emsg.ext_data_full_backref
        else cres.ok
      match branch with
      | cres.err s m => cres.err s m
      | cres.ok =>
        if flags &&& APFS_EXTENT_FLAG_TREE_BLOCK ≠ 0 ∧ key.type ≠ APFS_METADATA_ITEM_KEY then
          if ed.tree_block_level ≥ APFS_MAX_LEVEL then cres.err slot emsg.ext_tbi_level
          else
            check_inline_refs fs slot ed.inline_refs
              (apfs_extent_item_size + apfs_tree_block_info_size) item_size 0 total_refs
        else check_inline_refs fs slot ed.inline_refs apfs_extent_item_size item_size 0 total_refs

/-- src/tree-checker.c `check_simple_keyed_refs`. -/
def check_simple_keyed_refs (leaf : leaf_block) (key : apfs_key) (slot : Nat) : cres :=
  let expect_item_size := if key.type = APFS_SHARED_DATA_REF_KEY
                          then apfs_shared_data_ref_size else 0
  if item_size_nr leaf slot ≠ expect_item_size then cres.err slot emsg.skr_item_size
  else if ¬ (key.objectid % leaf.fs_info.sectorsize = 0) then
    cres.err slot emsg.skr_objectid_unaligned
  else if key.type ≠ APFS_TREE_BLOCK_REF_KEY ∧
      ¬ (key.offset % leaf.fs_info.sectorsize = 0) then
    cres.err slot emsg.skr_offset_unaligned
  else cres.ok

/-- The `for (; ptr < end; ptr += sizeof(*dref))` walk of src/tree-checker.c
`check_extent_data_ref`. -/
def check_dref_records (fs : apfs_fs_info) (slot : Nat)
    (drefs : List apfs_extent_data_ref) (ptr e : Nat) : cres :=
  if h : ptr < e then
    let dref := drefs.headD default
    if ¬ (dref.offset % fs.sectorsize = 0) then cres.err slot emsg.dref_offset_unaligned
    else check_dref_records fs slot drefs.tail (ptr + apfs_extent_data_ref_size) e
  else cres.ok
termination_by e - ptr
decreasing_by
  simp only [apfs_extent_data_ref_size] at *
  omega

/-- src/tree-checker.c `check_extent_data_ref`. -/
def check_extent_data_ref (leaf : leaf_block) (key : apfs_key) (slot : Nat) : cres :=
  if ¬ (item_size_nr leaf slot % apfs_extent_data_ref_size = 0) then
    cres.err slot emsg.dref_item_size
  else if ¬ (key.objectid % leaf.fs_info.sectorsize = 0) then
    cres.err slot emsg.dref_objectid_unaligned
  else
    check_dref_records leaf.fs_info slot (item_extent_data_refs (item_nr leaf slot)) 0
      (item_size_nr leaf slot)

/-- The `while (ptr < end)` walk of src/tree-checker.c `check_inode_ref` over
the packed name records.  The first overflow test uses `sizeof(iref)` — the
size of the *pointer* (8), not of the record (10) — exactly as the C does. -/
def check_iref_records (slot : Nat) (recs : List apfs_inode_ref_rec) (ptr e : Nat) : cres :=
  if h : ptr < e then
    if ptr + 8 > e then cres.err slot emsg.iref_overflow
    else
      let iref := recs.headD default
      let namelen := iref.name_len
      if ptr + apfs_inode_ref_size + namelen > e then cres.err slot emsg.iref_name_overflow
      else check_iref_records slot recs.tail (ptr + apfs_inode_ref_size + namelen) e
  else cres.ok
termination_by e - ptr
decreasing_by
  simp only [apfs_inode_ref_size] at *
  omega

/-- src/tree-checker.c `check_inode_ref`. -/
def check_inode_ref (leaf : leaf_block) (key : apfs_key) (prev_key : apfs_key)
    (slot : Nat) : cres :=
  if ¬ (check_prev_ino leaf key slot prev_key = true) then
    cres.err slot emsg.prev_ino_mismatch
  else if item_size_nr leaf slot ≤ apfs_inode_ref_size then cres.err slot emsg.iref_item_size
  else
    check_iref_records slot (item_inode_refs (item_nr leaf slot)) 0
      (item_size_nr leaf slot)

/-- src/tree-checker.c `check_leaf_item`: the dispatch switch; any key type
outside the enumerated cases keeps `ret = 0`. -/
def check_leaf_item (leaf : leaf_block) (key : apfs_key) (slot : Nat)
    (prev_key : apfs_key) : cres :=
  if key.type = APFS_EXTENT_DATA_KEY then check_extent_data_item leaf key slot prev_key
  else if key.type = APFS_EXTENT_CSUM_KEY then check_csum_item leaf key slot prev_key
  else if key.type = APFS_DIR_ITEM_KEY ∨ key.type = APFS_DIR_INDEX_KEY ∨
      key.type = APFS_XATTR_ITEM_KEY then
    check_dir_item leaf key prev_key slot
  else if key.type = APFS_INODE_REF_KEY then check_inode_ref leaf key prev_key slot
  else if key.type = APFS_BLOCK_GROUP_ITEM_KEY then check_block_group_item leaf key slot
  else if key.type = APFS_CHUNK_ITEM_KEY then
    check_leaf_chunk_item leaf (item_chunk (item_nr leaf slot)) key slot
  else if key.type = APFS_DEV_ITEM_KEY then check_dev_item leaf key slot
  else if key.type = APFS_INODE_ITEM_KEY then check_inode_item leaf key slot
  else if key.type = APFS_ROOT_ITEM_KEY then check_root_item leaf key slot
  else if key.type = APFS_EXTENT_ITEM_KEY ∨ key.type = APFS_METADATA_ITEM_KEY then
    check_extent_item leaf key slot
  else if key.type = APFS_TREE_BLOCK_REF_KEY ∨ key.type = APFS_SHARED_DATA_REF_KEY ∨
      key.type = APFS_SHARED_BLOCK_REF_KEY then
    check_simple_keyed_refs leaf key slot
  else if key.type = APFS_EXTENT_DATA_REF_KEY then check_extent_data_ref leaf key slot
  else cres.ok

/-! ### Leaf and node validators -/

/-- The `for (slot = 0; slot < nritems; slot++)` walk of src/tree-checker.c
`check_leaf` (the part after the unconditional early return): key ordering,
item layout, slot-end bound, and — in full mode — per-item dispatch, carrying
the previous key.  The list argument is the tail of slots not yet visited
(`leaf.items.drop slot`); it only drives the structural recursion, every read
goes through the slot accessors as in the C code. -/
def check_leaf_walk (leaf : leaf_block) (check_item_data : Bool) :
    List apfs_item → Nat → apfs_key → cres
  | [], _, _ => cres.ok
  | _ :: rest, slot, prev_key =>
    let key := item_key_nr leaf slot
    if apfs_comp_cpu_keys prev_key key ≥ 0 then cres.err slot emsg.bad_key_order
    else
      let item_end_expected := if slot = 0 then APFS_LEAF_DATA_SIZE leaf.fs_info
                               else item_offset_nr leaf (slot - 1)
      if item_end_nr leaf slot ≠ item_end_expected then
        cres.err slot emsg.unexpected_item_end
      else if item_end_nr leaf slot > APFS_LEAF_DATA_SIZE leaf.fs_info then
        cres.err slot emsg.slot_end_outside
      else if check_item_data then
        match check_leaf_item leaf key slot prev_key with
        | cres.err s m => cres.err s m
        | cres.ok => check_leaf_walk leaf check_item_data rest (slot + 1) key
      else check_leaf_walk leaf check_item_data rest (slot + 1) key

/-- Logical body of src/tree-checker.c `check_leaf` following the unconditional
`return 0` at its top (lines 1589-1717): the level / empty-leaf checks and the
slot walk.  In that revision this code is unreachable (see `check_leaf`). -/
def check_leaf_body (leaf : leaf_block) (check_item_data : Bool) : cres :=
  let nritems := apfs_header_nritems leaf
  if apfs_header_level leaf ≠ 0 then cres.err 0 emsg.bad_level
  else if nritems = 0 ∧ ¬ leaf.reloc_flag then
    let owner := apfs_header_owner leaf
    if owner = APFS_ROOT_TREE_OBJECTID ∨ owner = APFS_CHUNK_TREE_OBJECTID ∨
        owner = APFS_EXTENT_TREE_OBJECTID ∨ owner = APFS_DEV_TREE_OBJECTID ∨
        owner = APFS_FS_TREE_OBJECTID ∨ owner = APFS_DATA_RELOC_TREE_OBJECTID then
      cres.err 0 emsg.empty_root
    else if owner = 0 then cres.err 0 emsg.zero_owner
    else cres.ok
  else if nritems = 0 then cres.ok
  else check_leaf_walk leaf check_item_data leaf.items 0 default

/-- src/tree-checker.c `check_leaf`: its first executed statement is an
unconditional `return 0` (line 1598), so every call succeeds and the body
(`check_leaf_body`) is dead code. -/
def check_leaf (leaf : leaf_block) (check_item_data : Bool) : cres :=
  cres.ok

/-- src/tree-checker.c `apfs_check_leaf_full`. -/
def apfs_check_leaf_full (leaf : leaf_block) : cres := check_leaf leaf true

/-- src/tree-checker.c `apfs_check_leaf_relaxed`. -/
def apfs_check_leaf_relaxed (leaf : leaf_block) : cres := check_leaf leaf false

/-- The `for (slot = 0; slot < nr - 1; slot++)` walk of src/tree-checker.c
`apfs_check_node` (the part after the unconditional early return).  The list
argument is `node.ptrs.drop slot`; the walk stops at the last pointer. -/
def check_node_walk (node : node_block) : List apfs_key_ptr → Nat → cres
  | [], _ => cres.ok
  | [_], _ => cres.ok
  | _ :: p2 :: rest, slot =>
    let bytenr := apfs_node_blockptr node slot
    let key := node_key_nr node slot
    let next_key := node_key_nr node (slot + 1)
    if bytenr = 0 then cres.err slot emsg.node_null_ptr
    else if ¬ (bytenr % node.fs_info.sectorsize = 0) then
      cres.err slot emsg.node_unaligned_ptr
    else if apfs_comp_cpu_keys key next_key ≥ 0 then cres.err slot emsg.node_bad_key_order
    else check_node_walk node (p2 :: rest) (slot + 1)

/-- Logical body of src/tree-checker.c `apfs_check_node` following the
unconditional `return 0` at its top (lines 1730-1786): level range, nonzero
pointer count, and the adjacent-pointer walk.  The empty-node diagnostic
carries no slot; it is anchored at -1 here.  In that revision this code is
unreachable (see `apfs_check_node`). -/
def apfs_check_node_body (node : node_block) : cres :=
  let nr := node.ptrs.length
  let level := node.level
  if level = 0 ∨ level ≥ APFS_MAX_LEVEL then cres.err 0 emsg.node_level
  else if nr = 0 then cres.err (-1) emsg.node_empty
  else check_node_walk node node.ptrs 0

/-- src/tree-checker.c `apfs_check_node`: its first executed statement is an
unconditional `return 0` (line 1740), so every call succeeds and the body
(`apfs_check_node_body`) is dead code. -/
def apfs_check_node (node : node_block) : cres :=
  cres.ok

/-! ### Concrete fixtures for the executable checks -/

/-- A concrete filesystem configuration: 4096-byte sectors, 16384-byte nodes
(data area 16283 bytes after the 101-byte header), 4-byte checksums, current
generation 100, no incompat features, case-sensitive, trivial name hash. -/
def test_fs : apfs_fs_info :=
  { sectorsize := 4096, nodesize := 16384, csum_size := 4, super_generation := 100,
    incompat_flags := 0, leaf_data_size := 16283, case_insensitive := false,
    name_hash := fun _ _ => 0 }

/-- A two-item leaf whose layout is valid (payloads back to back from the end
of the data area) but whose keys are equal — a "bad key order" corruption at
slot 1.  The item type 99 is not one the dispatch handles, so full mode adds
no further constraint. -/
def bad_order_leaf : leaf_block :=
  { fs_info := test_fs, bytenr := 65536, owner := APFS_FS_TREE_OBJECTID, level := 0,
    reloc_flag := false,
    items := [
      { key := ⟨257, 99, 5⟩, offset := 16273, size := 10, data := item_data.raw },
      { key := ⟨257, 99, 5⟩, offset := 16263, size := 10, data := item_data.raw }] }

/-- The same leaf with strictly increasing keys and the same back-to-back,
non-overlapping payload layout. -/
def good_order_leaf : leaf_block :=
  { fs_info := test_fs, bytenr := 65536, owner := APFS_FS_TREE_OBJECTID, level := 0,
    reloc_flag := false,
    items := [
      { key := ⟨257, 99, 5⟩, offset := 16273, size := 10, data := item_data.raw },
      { key := ⟨257, 99, 6⟩, offset := 16263, size := 10, data := item_data.raw }] }

/-- A level-1 node with pointers [k0, k1, k2] where k1 < k0 (bad order at
slot 0); all child addresses are nonzero and sector-aligned. -/
def bad_node : node_block :=
  { fs_info := test_fs, bytenr := 131072, owner := APFS_FS_TREE_OBJECTID, level := 1,
    ptrs := [⟨⟨10, 1, 0⟩, 4096, 1⟩, ⟨⟨5, 1, 0⟩, 8192, 1⟩, ⟨⟨20, 1, 0⟩, 12288, 1⟩] }

/-- The same node with strictly increasing keys. -/
def good_node : node_block :=
  { fs_info := test_fs, bytenr := 131072, owner := APFS_FS_TREE_OBJECTID, level := 1,
    ptrs := [⟨⟨5, 1, 0⟩, 4096, 1⟩, ⟨⟨10, 1, 0⟩, 8192, 1⟩, ⟨⟨20, 1, 0⟩, 12288, 1⟩] }

/-! ## Claims C1, C5, C6, C10 -/

/-- C1: every call of the public validation entry points apfs_check_leaf_full,
apfs_check_leaf_relaxed and apfs_check_node returns 0 (success), because
check_leaf and apfs_check_node each execute an unconditional `return 0` before
any invariant-checking logic; no corruption of any kind is reported. -/
theorem C1_entry_points_unconditionally_succeed :
    (∀ leaf : leaf_block, apfs_check_leaf_full leaf = cres.ok) ∧
    (∀ leaf : leaf_block, apfs_check_leaf_relaxed leaf = cres.ok) ∧
    (∀ node : node_block, apfs_check_node node = cres.ok) :=
  ⟨fun _ => rfl, fun _ => rfl, fun _ => rfl⟩

/-- C5 (code-bug evidence): contrary to the claim, both leaf validation entry
points accept a leaf whose slot-1 key is not strictly greater than the slot-0
key, because of the unconditional early `return 0`; the disabled body
(`check_leaf_body`, the logic the claim describes) rejects exactly that leaf
with "bad key order" at slot 1 in both modes, and accepts the synthetic leaf
with strictly increasing keys and back-to-back, non-overlapping payloads in
both modes. -/
theorem C5_leaf_ordering_check_disabled :
    apfs_check_leaf_full bad_order_leaf = cres.ok ∧
    apfs_check_leaf_relaxed bad_order_leaf = cres.ok ∧
    check_leaf_body bad_order_leaf true = cres.err 1 emsg.bad_key_order ∧
    check_leaf_body bad_order_leaf false = cres.err 1 emsg.bad_key_order ∧
    check_leaf_body good_order_leaf true = cres.ok ∧
    check_leaf_body good_order_leaf false = cres.ok :=
  ⟨rfl, rfl, by decide, by decide, by decide, by decide⟩

/-- C6 (code-bug evidence): contrary to the claim, apfs_check_node accepts the
node [k0, k1, k2] with k1 < k0, because of the unconditional early `return 0`;
the disabled body (`apfs_check_node_body`, the logic the claim describes)
rejects that node at slot 0 and accepts the strictly increasing node with
aligned non-null child addresses, level 1 and three pointers. -/
theorem C6_node_key_monotonicity_disabled :
    apfs_check_node bad_node = cres.ok ∧
    apfs_check_node_body bad_node = cres.err 0 emsg.node_bad_key_order ∧
    apfs_check_node_body good_node = cres.ok :=
  ⟨rfl, by decide, by decide⟩

/-- The key types the check_leaf_item dispatch switch enumerates. -/
def handled_item_types : List Nat :=
  [APFS_EXTENT_DATA_KEY, APFS_EXTENT_CSUM_KEY, APFS_DIR_ITEM_KEY, APFS_DIR_INDEX_KEY,
   APFS_XATTR_ITEM_KEY, APFS_INODE_REF_KEY, APFS_BLOCK_GROUP_ITEM_KEY,
   APFS_CHUNK_ITEM_KEY, APFS_DEV_ITEM_KEY, APFS_INODE_ITEM_KEY, APFS_ROOT_ITEM_KEY,
   APFS_EXTENT_ITEM_KEY, APFS_METADATA_ITEM_KEY, APFS_TREE_BLOCK_REF_KEY,
   APFS_SHARED_DATA_REF_KEY, APFS_SHARED_BLOCK_REF_KEY, APFS_EXTENT_DATA_REF_KEY]

/-- C10: for every leaf item whose key type matches none of the types the
check_leaf_item switch enumerates, check_leaf_item returns 0: items of
unrecognized type are silently accepted by full semantic validation. -/
theorem C10_unknown_item_type_accepted (leaf : leaf_block) (key : apfs_key)
    (slot : Nat) (prev_key : apfs_key)
    (h : key.type ∉ handled_item_types) :
    check_leaf_item leaf key slot prev_key = cres.ok := by
  simp only [handled_item_types, List.mem_cons, List.not_mem_nil, or_false, not_or] at h
  obtain ⟨h1, h2, h3, h4, h5, h6, h7, h8, h9, h10, h11, h12, h13, h14, h15, h16, h17⟩ := h
  unfold check_leaf_item
  rw [if_neg h1, if_neg h2, if_neg (by push_neg; exact ⟨h3, h4, h5⟩), if_neg h6,
    if_neg h7, if_neg h8, if_neg h9, if_neg h10, if_neg h11,
    if_neg (by push_neg; exact ⟨h12, h13⟩), if_neg (by push_neg; exact ⟨h14, h15, h16⟩),
    if_neg h17]

theorem C10_unknown_item_type_accepted_witness :
    (77 : Nat) ∉ handled_item_types ∧
    check_leaf_item good_order_leaf ⟨257, 77, 0⟩ 0 ⟨0, 0, 0⟩ = cres.ok :=
  ⟨by decide,
    C10_unknown_item_type_accepted good_order_leaf ⟨257, 77, 0⟩ 0 ⟨0, 0, 0⟩ (by decide)⟩

/-! ## Claim C7 -/

theorem nat_and_sub (t m s r : Nat) (hs : m &&& s = s) (h : t &&& m = r) :
    t &&& s = r &&& s := by
  have h1 : (t &&& m) &&& s = r &&& s := by rw [h]
  rw [← h1, Nat.and_assoc, hs]

/-- C7: a chunk whose profile is RAID1 and whose other fields are valid and
sector-aligned is rejected with -EUCLEAN by apfs_check_chunk_valid when
num_stripes = 3 (RAID1 requires exactly 2) and accepted when
num_stripes = 2. -/
theorem C7_chunk_raid1_stripe_count (leaf : leaf_block) (c : apfs_chunk) (logical : Nat)
    (hprof : c.type &&& APFS_BLOCK_GROUP_PROFILE_MASK = APFS_BLOCK_GROUP_RAID1)
    (htype : c.type &&& APFS_BLOCK_GROUP_TYPE_MASK = APFS_BLOCK_GROUP_DATA ∨
             c.type &&& APFS_BLOCK_GROUP_TYPE_MASK = APFS_BLOCK_GROUP_METADATA ∨
             c.type &&& APFS_BLOCK_GROUP_TYPE_MASK = APFS_BLOCK_GROUP_SYSTEM)
    (hbits : c.type &&& (APFS_BLOCK_GROUP_TYPE_MASK ||| APFS_BLOCK_GROUP_PROFILE_MASK) = c.type)
    (hlog : logical % leaf.fs_info.sectorsize = 0)
    (hsec : c.sector_size = leaf.fs_info.sectorsize)
    (hlen0 : c.length ≠ 0)
    (hlen : c.length % leaf.fs_info.sectorsize = 0)
    (hov : logical + c.length < U64_MOD)
    (hstripe : c.stripe_len = APFS_STRIPE_LEN) :
    apfs_check_chunk_valid leaf { c with num_stripes := 3 } logical =
      cres.err (-1) emsg.chunk_stripe_table ∧
    apfs_check_chunk_valid leaf { c with num_stripes := 2 } logical = cres.ok := by
  have h64 : c.type &&& APFS_BLOCK_GROUP_RAID10 = 0 := by
    have h := nat_and_sub c.type APFS_BLOCK_GROUP_PROFILE_MASK APFS_BLOCK_GROUP_RAID10
      APFS_BLOCK_GROUP_RAID1 (by decide) hprof
    rw [h]; decide
  have h16 : c.type &&& APFS_BLOCK_GROUP_RAID1 = APFS_BLOCK_GROUP_RAID1 := by
    have h := nat_and_sub c.type APFS_BLOCK_GROUP_PROFILE_MASK APFS_BLOCK_GROUP_RAID1
      APFS_BLOCK_GROUP_RAID1 (by decide) hprof
    rw [h]; decide
  have h32 : c.type &&& APFS_BLOCK_GROUP_DUP = 0 := by
    have h := nat_and_sub c.type APFS_BLOCK_GROUP_PROFILE_MASK APFS_BLOCK_GROUP_DUP
      APFS_BLOCK_GROUP_RAID1 (by decide) hprof
    rw [h]; decide
  have h128 : c.type &&& APFS_BLOCK_GROUP_RAID5 = 0 := by
    have h := nat_and_sub c.type APFS_BLOCK_GROUP_PROFILE_MASK APFS_BLOCK_GROUP_RAID5
      APFS_BLOCK_GROUP_RAID1 (by decide) hprof
    rw [h]; decide
  have h256 : c.type &&& APFS_BLOCK_GROUP_RAID6 = 0 := by
    have h := nat_and_sub c.type APFS_BLOCK_GROUP_PROFILE_MASK APFS_BLOCK_GROUP_RAID6
      APFS_BLOCK_GROUP_RAID1 (by decide) hprof
    rw [h]; decide
  have hsys : c.type &&& APFS_BLOCK_GROUP_SYSTEM = 0 ∨
      c.type &&& (APFS_BLOCK_GROUP_METADATA ||| APFS_BLOCK_GROUP_DATA) = 0 := by
    rcases htype with ht | ht | ht
    · left
      have h := nat_and_sub c.type APFS_BLOCK_GROUP_TYPE_MASK APFS_BLOCK_GROUP_SYSTEM
        APFS_BLOCK_GROUP_DATA (by decide) ht
      rw [h]; decide
    · left
      have h := nat_and_sub c.type APFS_BLOCK_GROUP_TYPE_MASK APFS_BLOCK_GROUP_SYSTEM
        APFS_BLOCK_GROUP_METADATA (by decide) ht
      rw [h]; decide
    · right
      have h := nat_and_sub c.type APFS_BLOCK_GROUP_TYPE_MASK
        (APFS_BLOCK_GROUP_METADATA ||| APFS_BLOCK_GROUP_DATA)
        APFS_BLOCK_GROUP_SYSTEM (by decide) ht
      rw [h]; decide
  have hmd : c.type &&& APFS_BLOCK_GROUP_METADATA = 0 ∨
      c.type &&& APFS_BLOCK_GROUP_DATA = 0 := by
    rcases htype with ht | ht | ht
    · left
      have h := nat_and_sub c.type APFS_BLOCK_GROUP_TYPE_MASK APFS_BLOCK_GROUP_METADATA
        APFS_BLOCK_GROUP_DATA (by decide) ht
      rw [h]; decide
    · right
      have h := nat_and_sub c.type APFS_BLOCK_GROUP_TYPE_MASK APFS_BLOCK_GROUP_DATA
        APFS_BLOCK_GROUP_METADATA (by decide) ht
      rw [h]; decide
    · left
      have h := nat_and_sub c.type APFS_BLOCK_GROUP_TYPE_MASK APFS_BLOCK_GROUP_METADATA
        APFS_BLOCK_GROUP_SYSTEM (by decide) ht
      rw [h]; decide
  have htm : c.type &&& APFS_BLOCK_GROUP_TYPE_MASK ≠ 0 := by
    rcases htype with ht | ht | ht <;> rw [ht] <;> decide
  have hpc : popcount (c.type &&& APFS_BLOCK_GROUP_PROFILE_MASK) = 1 := by
    rw [hprof]; decide
  have hpl : popcount c.stripe_len = 1 := by rw [hstripe]; decide
  have hno : ¬ u64_add_overflows logical c.length := by
    unfold u64_add_overflows; omega
  have hnc : raid_ncopies c.type = 2 := by
    unfold raid_ncopies
    rw [if_neg (by rw [h64]; decide), if_pos (by rw [h16]; decide)]
  have hnp : raid_nparity c.type = 0 := by
    unfold raid_nparity
    rw [if_neg (by rw [h64]; decide), if_pos (by rw [h16]; decide)]
  have hr1 : c.type &&& APFS_BLOCK_GROUP_RAID1 ≠ 0 := by
    rw [h16]
    decide
  have hsl : ¬ (¬ (popcount c.stripe_len = 1) ∨ c.stripe_len ≠ APFS_STRIPE_LEN) := by
    push_neg
    exact ⟨hpl, hstripe⟩
  constructor
  · simp only [apfs_check_chunk_valid]
    rw [if_neg (by decide), if_neg (by simp [hnc]), if_neg (by simp [hnp]),
      if_neg (by simp [hlog]), if_neg (by simp [hsec]), if_neg (by simp [hlen0, hlen]),
      if_neg (by simpa using hno), if_neg hsl,
      if_neg (by simp [hbits]), if_neg (by simp [hpc]), if_neg (by simp [htm]),
      if_neg (by rcases hsys with h | h <;> simp [h]),
      if_neg (by rcases hmd with h | h <;> simp [h]),
      if_pos (Or.inr (Or.inl ⟨hr1, by decide⟩))]
  · simp only [apfs_check_chunk_valid]
    rw [if_neg (by decide), if_neg (by simp [hnc]), if_neg (by simp [hnp]),
      if_neg (by simp [hlog]), if_neg (by simp [hsec]), if_neg (by simp [hlen0, hlen]),
      if_neg (by simpa using hno), if_neg hsl,
      if_neg (by simp [hbits]), if_neg (by simp [hpc]), if_neg (by simp [htm]),
      if_neg (by rcases hsys with h | h <;> simp [h]),
      if_neg (by rcases hmd with h | h <;> simp [h]),
      if_neg (by simp [h64, h16, h128, h256, h32, hprof, APFS_BLOCK_GROUP_RAID1])]

/-- A concrete data chunk with RAID1 profile and valid, sector-aligned
fields. -/
def test_chunk : apfs_chunk :=
  { length := 8192, stripe_len := 65536, type := 17, sector_size := 4096,
    num_stripes := 7, sub_stripes := 1 }

theorem C7_chunk_raid1_stripe_count_witness :
    test_chunk.type &&& APFS_BLOCK_GROUP_PROFILE_MASK = APFS_BLOCK_GROUP_RAID1 ∧
    test_chunk.type &&& APFS_BLOCK_GROUP_TYPE_MASK = APFS_BLOCK_GROUP_DATA ∧
    test_chunk.type &&& (APFS_BLOCK_GROUP_TYPE_MASK ||| APFS_BLOCK_GROUP_PROFILE_MASK) =
      test_chunk.type ∧
    4096 % good_order_leaf.fs_info.sectorsize = 0 ∧
    test_chunk.sector_size = good_order_leaf.fs_info.sectorsize ∧
    test_chunk.length ≠ 0 ∧
    test_chunk.length % good_order_leaf.fs_info.sectorsize = 0 ∧
    4096 + test_chunk.length < U64_MOD ∧
    test_chunk.stripe_len = APFS_STRIPE_LEN ∧
    (apfs_check_chunk_valid good_order_leaf { test_chunk with num_stripes := 3 } 4096 =
      cres.err (-1) emsg.chunk_stripe_table ∧
    apfs_check_chunk_valid good_order_leaf { test_chunk with num_stripes := 2 } 4096 =
      cres.ok) :=
  ⟨by decide, by decide, by decide, by decide, by decide, by decide, by decide, by decide,
    by decide,
    C7_chunk_raid1_stripe_count good_order_leaf test_chunk 4096 (by decide)
      (Or.inl (by decide)) (by decide) (by decide) (by decide) (by decide) (by decide)
      (by decide) (by decide)⟩

/-! ## Claim C9 -/

theorem item_file_extent_eq (it : apfs_item) (fi : apfs_file_extent_item)
    (h : it.data = item_data.file_extent fi) : item_file_extent it = fi := by
  unfold item_file_extent
  rw [h]

/-- C9: for two consecutive file-extent items of the same inode where the
first extent's computed end (`file_extent_end`, which rounds an inline
extent's end up to the sector size) exceeds the second extent's key offset,
full validation of the second item (`check_extent_data_item`, the item
validator full-mode validation dispatches to) fails, and the corruption is
reported tied to the first of the two slots (slot - 1).  The hypotheses state
that the second item passes every check preceding the overlap check, which the
claim presupposes by asserting the failure is attributed to the first slot. -/
theorem C9_file_extent_overlap_rejected (leaf : leaf_block) (key prev_key : apfs_key)
    (slot : Nat) (fi prev_fi : apfs_file_extent_item)
    (hslot : 0 < slot)
    (hka : key.offset % leaf.fs_info.sectorsize = 0)
    (hprev_obj : prev_key.objectid = key.objectid)
    (hprev_type : prev_key.type = APFS_EXTENT_DATA_KEY)
    (hfi : (item_nr leaf slot).data = item_data.file_extent fi)
    (hpfi : (item_nr leaf (slot - 1)).data = item_data.file_extent prev_fi)
    (hsize : item_size_nr leaf slot = apfs_file_extent_item_size)
    (htype : fi.type = APFS_FILE_EXTENT_REG ∨ fi.type = APFS_FILE_EXTENT_PREALLOC)
    (hcomp : fi.compression < APFS_NR_COMPRESS_TYPES)
    (henc : fi.encryption = 0)
    (hal1 : fi.ram_bytes % leaf.fs_info.sectorsize = 0)
    (hal2 : fi.disk_bytenr % leaf.fs_info.sectorsize = 0)
    (hal3 : fi.disk_num_bytes % leaf.fs_info.sectorsize = 0)
    (hal4 : fi.offset % leaf.fs_info.sectorsize = 0)
    (hal5 : fi.num_bytes % leaf.fs_info.sectorsize = 0)
    (hov : fi.num_bytes + key.offset < U64_MOD)
    (hover : file_extent_end leaf prev_key prev_fi > key.offset) :
    check_extent_data_item leaf key slot prev_key =
      cres.err (slot - 1 : Nat) emsg.fe_overlap := by
  have hfi' : item_file_extent (item_nr leaf slot) = fi := item_file_extent_eq _ _ hfi
  have hpfi' : item_file_extent (item_nr leaf (slot - 1)) = prev_fi :=
    item_file_extent_eq _ _ hpfi
  have hcpi : check_prev_ino leaf key slot prev_key = true := by
    unfold check_prev_ino
    split_ifs <;> simp_all
  simp only [check_extent_data_item, hfi', hpfi']
  rw [if_neg (by simp [hka]), if_neg (by simp [hcpi]),
    if_neg (by rw [hsize]; decide),
    if_neg (by rcases htype with ht | ht <;> rw [ht] <;> decide),
    if_neg (by simp only [not_le]; exact hcomp), if_neg (by simp [henc]),
    if_neg (by rcases htype with ht | ht <;> rw [ht] <;> decide),
    if_neg (by rw [hsize]; simp),
    if_neg (by push_neg; exact ⟨hal1, hal2, hal3, hal4, hal5⟩),
    if_neg (by simp only [u64_add_overflows, U64_MOD] at *; omega),
    if_pos ⟨hslot, hprev_obj, hprev_type⟩,
    if_pos hover]

/-- Two consecutive regular file extents of inode 257 in one leaf: the first
covers file range [0, 8192) but the second starts at file offset 4096. -/
def overlap_leaf : leaf_block :=
  { fs_info := test_fs, bytenr := 65536, owner := APFS_FS_TREE_OBJECTID, level := 0,
    reloc_flag := false,
    items := [
      { key := ⟨257, 108, 0⟩, offset := 16230, size := 53,
        data := item_data.file_extent
          { type := 1, compression := 0, encryption := 0, ram_bytes := 8192,
            disk_bytenr := 4096, disk_num_bytes := 8192, offset := 0,
            num_bytes := 8192 } },
      { key := ⟨257, 108, 4096⟩, offset := 16177, size := 53,
        data := item_data.file_extent
          { type := 1, compression := 0, encryption := 0, ram_bytes := 4096,
            disk_bytenr := 12288, disk_num_bytes := 4096, offset := 0,
            num_bytes := 4096 } }] }

theorem C9_file_extent_overlap_rejected_witness :
    0 < 1 ∧
    file_extent_end overlap_leaf ⟨257, 108, 0⟩
      { type := 1, compression := 0, encryption := 0, ram_bytes := 8192,
        disk_bytenr := 4096, disk_num_bytes := 8192, offset := 0,
        num_bytes := 8192 } > (4096 : Nat) ∧
    check_extent_data_item overlap_leaf ⟨257, 108, 4096⟩ 1 ⟨257, 108, 0⟩ =
      cres.err (0 : Nat) emsg.fe_overlap :=
  ⟨by decide, by decide,
    C9_file_extent_overlap_rejected overlap_leaf ⟨257, 108, 4096⟩ ⟨257, 108, 0⟩ 1
      { type := 1, compression := 0, encryption := 0, ram_bytes := 4096,
        disk_bytenr := 12288, disk_num_bytes := 4096, offset := 0, num_bytes := 4096 }
      { type := 1, compression := 0, encryption := 0, ram_bytes := 8192,
        disk_bytenr := 4096, disk_num_bytes := 8192, offset := 0, num_bytes := 8192 }
      (by decide) (by decide) (by decide) (by decide) (by decide) (by decide) (by decide)
      (Or.inl (by decide)) (by decide) (by decide) (by decide) (by decide) (by decide)
      (by decide) (by decide) (by decide) (by decide)⟩

/-! ## Claim C8 -/

/-- Per-reference well-formedness for the refcount-accounting statement: a
known reference type whose own field checks pass (parent/offset alignment). -/
def ref_wf (fs : apfs_fs_info) : inline_ref → Bool
  | .tree_block _ => true
  | .shared_block o => o % fs.sectorsize = 0
  | .extent_data _ _ o _ => o % fs.sectorsize = 0
  | .shared_data o _ => o % fs.sectorsize = 0
  | .unknown _ _ => false

/-- Total packed byte size of an inline reference list. -/
def inline_refs_bytes : List inline_ref → Nat
  | [] => 0
  | r :: rs => apfs_extent_inline_ref_size (inline_ref_type r) + inline_refs_bytes rs

/-- Total reference count contributed by an inline reference list: 1 per
tree-block / shared-block ref, the stored count for data-style refs. -/
def inline_refs_count : List inline_ref → Nat
  | [] => 0
  | .tree_block _ :: rs => 1 + inline_refs_count rs
  | .shared_block _ :: rs => 1 + inline_refs_count rs
  | .extent_data _ _ _ c :: rs => c + inline_refs_count rs
  | .shared_data _ c :: rs => c + inline_refs_count rs
  | .unknown _ _ :: rs => inline_refs_count rs

theorem check_inline_refs_complete (fs : apfs_fs_info) (slot : Nat)
    (rs : List inline_ref) (total_refs : Nat)
    (hwf : ∀ r ∈ rs, ref_wf fs r = true) :
    ∀ ptr acc,
      check_inline_refs fs slot rs ptr (ptr + inline_refs_bytes rs) acc total_refs =
      (if total_refs < acc + inline_refs_count rs then cres.err slot emsg.ext_refs_mismatch
       else cres.ok) := by
  induction rs with
  | nil =>
      intro ptr acc
      unfold check_inline_refs
      simp [inline_refs_bytes, inline_refs_count]
  | cons r rs ih =>
      intro ptr acc
      have hwfr : ref_wf fs r = true := hwf r (List.mem_cons_self r rs)
      have hwf' : ∀ x ∈ rs, ref_wf fs x = true := fun x hx => hwf x (List.mem_cons_of_mem r hx)
      cases r with
      | tree_block o =>
          have hb : inline_refs_bytes (inline_ref.tree_block o :: rs) =
              9 + inline_refs_bytes rs := rfl
          have he : ptr + inline_refs_bytes (inline_ref.tree_block o :: rs) =
              ptr + 9 + inline_refs_bytes rs := by rw [hb]; omega
          rw [he]
          unfold check_inline_refs
          rw [dif_pos (by omega)]
          rw [if_neg (by simp only [apfs_extent_inline_ref_hdr_size]; omega)]
          simp only [List.headD_cons, List.tail_cons, inline_ref_type, inline_ref_offset]
          have hs : apfs_extent_inline_ref_size APFS_TREE_BLOCK_REF_KEY = 9 := rfl
          rw [hs]
          rw [if_neg (by omega), if_pos trivial]
          rw [ih hwf' (ptr + 9) (acc + 1)]
          have hc : acc + 1 + inline_refs_count rs =
              acc + inline_refs_count (inline_ref.tree_block o :: rs) := by
            simp only [inline_refs_count]
            omega
          rw [hc]
      | shared_block o =>
          have hal : o % fs.sectorsize = 0 := of_decide_eq_true hwfr
          have hb : inline_refs_bytes (inline_ref.shared_block o :: rs) =
              9 + inline_refs_bytes rs := rfl
          have he : ptr + inline_refs_bytes (inline_ref.shared_block o :: rs) =
              ptr + 9 + inline_refs_bytes rs := by rw [hb]; omega
          rw [he]
          unfold check_inline_refs
          rw [dif_pos (by omega)]
          rw [if_neg (by simp only [apfs_extent_inline_ref_hdr_size]; omega)]
          simp only [List.headD_cons, List.tail_cons, inline_ref_type, inline_ref_offset]
          have hs : apfs_extent_inline_ref_size APFS_SHARED_BLOCK_REF_KEY = 9 := rfl
          rw [hs]
          rw [if_neg (by omega),
            if_neg (by decide : ¬(APFS_SHARED_BLOCK_REF_KEY = APFS_TREE_BLOCK_REF_KEY)),
            if_pos trivial, if_neg (not_not_intro hal)]
          rw [ih hwf' (ptr + 9) (acc + 1)]
          have hc : acc + 1 + inline_refs_count rs =
              acc + inline_refs_count (inline_ref.shared_block o :: rs) := by
            simp only [inline_refs_count]
            omega
          rw [hc]
      | extent_data a b o c =>
          have hal : o % fs.sectorsize = 0 := of_decide_eq_true hwfr
          have hb : inline_refs_bytes (inline_ref.extent_data a b o c :: rs) =
              29 + inline_refs_bytes rs := rfl
          have he : ptr + inline_refs_bytes (inline_ref.extent_data a b o c :: rs) =
              ptr + 29 + inline_refs_bytes rs := by rw [hb]; omega
          rw [he]
          unfold check_inline_refs
          rw [dif_pos (by omega)]
          rw [if_neg (by simp only [apfs_extent_inline_ref_hdr_size]; omega)]
          simp only [List.headD_cons, List.tail_cons, inline_ref_type, inline_ref_offset,
            inline_ref_dref]
          have hs : apfs_extent_inline_ref_size APFS_EXTENT_DATA_REF_KEY = 29 := rfl
          rw [hs]
          rw [if_neg (by omega),
            if_neg (by decide : ¬(APFS_EXTENT_DATA_REF_KEY = APFS_TREE_BLOCK_REF_KEY)),
            if_neg (by decide : ¬(APFS_EXTENT_DATA_REF_KEY = APFS_SHARED_BLOCK_REF_KEY)),
            if_pos trivial, if_neg (not_not_intro hal)]
          rw [ih hwf' (ptr + 29) (acc + c)]
          have hc : acc + c + inline_refs_count rs =
              acc + inline_refs_count (inline_ref.extent_data a b o c :: rs) := by
            simp only [inline_refs_count]
            omega
          rw [hc]
      | shared_data o c =>
          have hal : o % fs.sectorsize = 0 := of_decide_eq_true hwfr
          have hb : inline_refs_bytes (inline_ref.shared_data o c :: rs) =
              13 + inline_refs_bytes rs := rfl
          have he : ptr + inline_refs_bytes (inline_ref.shared_data o c :: rs) =
              ptr + 13 + inline_refs_bytes rs := by rw [hb]; omega
          rw [he]
          unfold check_inline_refs
          rw [dif_pos (by omega)]
          rw [if_neg (by simp only [apfs_extent_inline_ref_hdr_size]; omega)]
          simp only [List.headD_cons, List.tail_cons, inline_ref_type, inline_ref_offset,
            inline_ref_sref_count]
          have hs : apfs_extent_inline_ref_size APFS_SHARED_DATA_REF_KEY = 13 := rfl
          rw [hs]
          rw [if_neg (by omega),
            if_neg (by decide : ¬(APFS_SHARED_DATA_REF_KEY = APFS_TREE_BLOCK_REF_KEY)),
            if_neg (by decide : ¬(APFS_SHARED_DATA_REF_KEY = APFS_SHARED_BLOCK_REF_KEY)),
            if_neg (by decide : ¬(APFS_SHARED_DATA_REF_KEY = APFS_EXTENT_DATA_REF_KEY)),
            if_pos trivial, if_neg (not_not_intro hal)]
          rw [ih hwf' (ptr + 13) (acc + c)]
          have hc : acc + c + inline_refs_count rs =
              acc + inline_refs_count (inline_ref.shared_data o c :: rs) := by
            simp only [inline_refs_count]
            omega
          rw [hc]
      | unknown t o =>
          simp [ref_wf] at hwfr

theorem item_extent_eq (it : apfs_item) (ed : apfs_extent_item_data)
    (h : it.data = item_data.extent ed) : item_extent it = ed := by
  unfold item_extent
  rw [h]

/-- C8: for a data extent item whose inline back-reference list parses
completely (the item size is exactly the header plus the packed references)
and whose references all pass their per-field checks, check_extent_item
rejects the item exactly when the reference counts contributed by the inline
references sum to more than the header's declared total refcount, and accepts
it when the sum is equal or smaller. -/
theorem C8_extent_item_refcount (leaf : leaf_block) (key : apfs_key) (slot : Nat)
    (ed : apfs_extent_item_data)
    (hdata : (item_nr leaf slot).data = item_data.extent ed)
    (hkey : key.type = APFS_EXTENT_ITEM_KEY)
    (hobj : key.objectid % leaf.fs_info.sectorsize = 0)
    (hlen : key.offset % leaf.fs_info.sectorsize = 0)
    (hsize : item_size_nr leaf slot = apfs_extent_item_size + inline_refs_bytes ed.inline_refs)
    (hgen : ed.generation ≤ leaf.fs_info.super_generation + 1)
    (hflags : ed.flags = APFS_EXTENT_FLAG_DATA)
    (hrefs : ∀ r ∈ ed.inline_refs, ref_wf leaf.fs_info r = true) :
    check_extent_item leaf key slot =
      (if ed.refs < inline_refs_count ed.inline_refs
       then cres.err slot emsg.ext_refs_mismatch else cres.ok) := by
  have hed : item_extent (item_nr leaf slot) = ed := item_extent_eq _ _ hdata
  simp only [check_extent_item, hed]
  rw [if_neg (by rw [hkey]; exact fun h => absurd h.1 (by decide)),
    if_neg (not_not_intro hobj),
    if_neg (by rw [hkey]; exact fun h => absurd h.1 (by decide)),
    if_neg (by rw [hsize]; simp only [apfs_extent_item_size, not_lt]; omega),
    if_neg (by simp only [not_lt]; exact hgen),
    if_neg (not_not_intro (by rw [hflags]; decide)),
    if_neg (by rw [hflags]; decide),
    if_neg (not_not_intro hkey),
    if_neg (not_not_intro hlen),
    if_neg (by rw [hflags]; decide)]
  simp only []
  rw [if_neg (by rw [hflags]; exact fun h => absurd h.1 (by decide))]
  rw [hsize, check_inline_refs_complete leaf.fs_info slot ed.inline_refs ed.refs hrefs
    apfs_extent_item_size 0]
  simp only [Nat.zero_add]

/-- A data extent item (refcount 5) whose two inline data references
contribute 2 + 3 = 5 references, packed into 24 + 29 + 13 = 66 bytes. -/
def extent_item_fixture : apfs_extent_item_data :=
  { refs := 5, generation := 1, flags := 1, tree_block_level := 0,
    inline_refs := [inline_ref.extent_data 5 257 0 2, inline_ref.shared_data 8192 3] }

/-- A leaf holding just that extent item. -/
def extent_leaf : leaf_block :=
  { fs_info := test_fs, bytenr := 65536, owner := APFS_EXTENT_TREE_OBJECTID, level := 0,
    reloc_flag := false,
    items := [
      { key := ⟨4096, 168, 4096⟩, offset := 16217, size := 66,
        data := item_data.extent extent_item_fixture }] }

theorem C8_extent_item_refcount_witness :
    (item_nr extent_leaf 0).data = item_data.extent extent_item_fixture ∧
    (⟨4096, 168, 4096⟩ : apfs_key).type = APFS_EXTENT_ITEM_KEY ∧
    item_size_nr extent_leaf 0 =
      apfs_extent_item_size + inline_refs_bytes extent_item_fixture.inline_refs ∧
    extent_item_fixture.flags = APFS_EXTENT_FLAG_DATA ∧
    (∀ r ∈ extent_item_fixture.inline_refs, ref_wf extent_leaf.fs_info r = true) ∧
    check_extent_item extent_leaf ⟨4096, 168, 4096⟩ 0 =
      (if extent_item_fixture.refs < inline_refs_count extent_item_fixture.inline_refs
       then cres.err 0 emsg.ext_refs_mismatch else cres.ok) :=
  ⟨by decide, by decide, by decide, by decide, by decide,
    C8_extent_item_refcount extent_leaf ⟨4096, 168, 4096⟩ 0 extent_item_fixture
      (by decide) (by decide) (by decide) (by decide) (by decide) (by decide) (by decide)
      (by decide)⟩
